import Mathlib

/-!
Verification development for the `read_binary_imu` decoders (Axivity CWA,
GeneActiv BIN, ActiGraph GT3X) of scikit-digital-health.

The repository provides the C header `src/skdh/io/_extensions/read_binary_imu.h`
(structures, error enumerations, fixed-offset date macros, constants); the
function bodies live in companion `.c` files that are not part of the given
sources.  Definitions below that embed header material (structs, enums,
macros, constants) are translated directly from the header; functions whose
bodies are missing are marked `Modelled from the spec:` in their doc comment
and follow the specification's description of the corresponding routine.
Timestamps are modelled as rational numbers of epoch seconds (the C code uses
`double`; none of the verified properties depend on rounding behaviour).
-/

set_option maxRecDepth 8192

namespace ReadBinaryIMU

/- ======================================
   GENERAL (header lines 16-44)
   ====================================== -/

/-- `#define SECMIN 60` from the header. -/
def SECMIN : ℤ := 60

/-- `#define SECHOUR 3600` from the header. -/
def SECHOUR : ℤ := 3600

/-- `#define DAYSEC 86400.f` from the header. -/
def DAYSEC : ℚ := 86400

/-- `#define MAX_DAYS 25` from the header. -/
def MAX_DAYS : ℕ := 25

/-- `Time_t` struct from the header: decomposed wall-clock time with integer
milliseconds. -/
structure Time_t where
  hour : ℤ
  min : ℤ
  sec : ℤ
  msec : ℤ
deriving DecidableEq

/-- Seconds since midnight denoted by a `Time_t`. -/
def Time_t.toSecs (t : Time_t) : ℚ :=
  3600 * t.hour + 60 * t.min + t.sec + t.msec / 1000

/-- `Window_t` struct from the header: `n` window definitions given by
parallel arrays of base hours and period lengths (hours). -/
structure Window_t where
  n : ℕ
  bases : List ℤ
  periods : List ℤ

/-- Calendar day (number of whole days since the epoch) a timestamp falls in. -/
def dayOf (t : ℚ) : ℤ := ⌊t / DAYSEC⌋

/-- Time of day (seconds since midnight) of an epoch timestamp. -/
def timeOfDay (t : ℚ) : ℚ := t - DAYSEC * (dayOf t : ℚ)

/-- Modelled from the spec: the calendar days present in the timestamp range,
in order of first appearance, bounded by `maxDays` (the body of
`get_day_indexing` is not among the given sources; §4.1 of the spec describes
the contract). -/
def daysPresent (ts : List ℚ) (maxDays : ℕ) : List ℤ :=
  ((ts.map dayOf).dedup).take maxDays

/-- Index of the first sample strictly after day `d` (`ts.length` if none). -/
def firstAfterDay (ts : List ℚ) (d : ℤ) : ℕ :=
  ts.findIdx (fun t => decide (d < dayOf t))

/-- Index of the last sample of day `d` in a time-ordered stream. -/
def endOfDay (ts : List ℚ) (d : ℤ) : ℕ := firstAfterDay ts d - 1

/-- Modelled from the spec: index of the first sample belonging to day `d`
whose time-of-day is at least `base` o'clock (`ts.length` if none). -/
def windowStart (ts : List ℚ) (d : ℤ) (base : ℤ) : ℕ :=
  ts.findIdx (fun t => dayOf t == d && decide ((3600 * base : ℚ) ≤ timeOfDay t))

/-- Modelled from the spec: the `(start, stop)` index pair for day `d` and
window definition `(base, period)`: the start is the first sample of day `d`
at or after `base` o'clock, the stop the first subsequent sample whose
elapsed time reaches `period` hours, or the end of the day, whichever comes
first.  When no sample of day `d` meets the base-hour condition the engine
records the empty range at the end of the day. -/
def windowPair (ts : List ℚ) (d : ℤ) (base period : ℤ) : ℕ × ℕ :=
  if windowStart ts d base < ts.length then
    (windowStart ts d base,
      min
        (windowStart ts d base + 1 +
          (ts.drop (windowStart ts d base + 1)).findIdx
            (fun t =>
              decide (ts.getD (windowStart ts d base) 0 + (3600 * period : ℚ) ≤ t)))
        (endOfDay ts d))
  else (endOfDay ts d, endOfDay ts d)

/-- Modelled from the spec: all `(start, stop)` pairs, day-major then
window-major, for the days present in the stream. -/
def dayPairs (ts : List ℚ) (windows : List (ℤ × ℤ)) (maxDays : ℕ) :
    List (ℕ × ℕ) :=
  (daysPresent ts maxDays).flatMap
    (fun d => windows.map (fun bp => windowPair ts d bp.1 bp.2))

/-- Modelled from the spec: the day-indexing engine `get_day_indexing`
(declared at header lines 39-44; the Fortran/C body is not among the given
sources).  Returns the `day_starts` array, the `day_stops` array, and the
number of days found; `fs` is carried for the timestamp-synthesis variant. -/
def get_day_indexing (fs : ℚ) (ts : List ℚ) (w : Window_t) (maxDays : ℕ) :
    List ℕ × List ℕ × ℕ :=
  let pairs := dayPairs ts (w.bases.zip w.periods) maxDays
  (pairs.map Prod.fst, pairs.map Prod.snd, (daysPresent ts maxDays).length)

/-- Modelled from the spec: timestamp stream synthesized from a first-sample
epoch time and the sampling frequency (§4.1: "first-sample epoch time +
index/frequency"). -/
def synthesizeTs (t0 : ℚ) (fs : ℚ) (n : ℕ) : List ℚ :=
  (List.range n).map (fun i : ℕ => t0 + (i : ℚ) / fs)

/- ======================================
   AXIVITY (header lines 46-86)
   ====================================== -/

/-- `Read_Cwa_Error_t` enumeration from the header (lines 73-81). -/
inductive Read_Cwa_Error_t where
  | AX_READ_E_NONE
  | AX_READ_E_BAD_HEADER
  | AX_READ_E_MISMATCH_N_AXES
  | AX_READ_E_INVALID_BLOCK_SAMPLES
  | AX_READ_E_BAD_AXES_PACKED
  | AX_READ_E_BAD_PACKING_CODE
  | AX_READ_E_BAD_CHECKSUM
deriving DecidableEq

/-- Numeric values assigned to `Read_Cwa_Error_t` in the header (`= 0` .. `= 6`). -/
def Read_Cwa_Error_t.toCode : Read_Cwa_Error_t → ℕ
  | .AX_READ_E_NONE => 0
  | .AX_READ_E_BAD_HEADER => 1
  | .AX_READ_E_MISMATCH_N_AXES => 2
  | .AX_READ_E_INVALID_BLOCK_SAMPLES => 3
  | .AX_READ_E_BAD_AXES_PACKED => 4
  | .AX_READ_E_BAD_PACKING_CODE => 5
  | .AX_READ_E_BAD_CHECKSUM => 6

/-- `AX_Info_t` struct from the header (lines 51-63). -/
structure AX_Info_t where
  deviceId : ℤ
  sessionId : ℤ
  nblocks : ℤ
  axes : ℤ
  count : ℤ
  tLast : ℚ
  N : ℤ
  frequency : ℚ
  Nwin : ℤ
  max_days : ℤ
  n_bad_blocks : ℤ
deriving DecidableEq

/-- Modelled from the spec: one 512-byte Axivity data block, self-describing
(axis count, packing code, per-block timestamp, sample count, stored 16-bit
checksum); its content is modelled as the list of 16-bit words of the data
area (the body of `axivity_read_block` is not among the given sources). -/
structure AXBlock where
  axes : ℤ
  packing : ℤ
  nsamples : ℤ
  timestamp : ℚ
  words : List ℕ
  checksum : ℕ
deriving DecidableEq

/-- Modelled from the spec: the 16-bit additive checksum over the block's
content words. -/
def axComputeChecksum (b : AXBlock) : ℕ := (b.words.foldl (· + ·) 0) % 65536

/-- Modelled from the spec: recognized packing codes.  The authoritative
packing table is not in the given material (spec §9, open question); the two
representative schemes are `0` = packed (three 10-bit values per 32-bit word)
and `2` = unpacked (one signed 16-bit word per axis sample). -/
def axPackingKnown (packing : ℤ) : Prop := packing = 0 ∨ packing = 2

/-- Modelled from the spec: supported axis-count/packing-code layouts
(packed requires triaxial data; unpacked supports 3, 6 or 9 axes). -/
def axAxesPackedOk (axes packing : ℤ) : Prop :=
  (packing = 0 ∧ axes = 3) ∨ (packing = 2 ∧ (axes = 3 ∨ axes = 6 ∨ axes = 9))

instance (packing : ℤ) : Decidable (axPackingKnown packing) := by
  unfold axPackingKnown
  infer_instance

instance (axes packing : ℤ) : Decidable (axAxesPackedOk axes packing) := by
  unfold axAxesPackedOk
  infer_instance

/-- Modelled from the spec: physical sample capacity of the 480-byte data
area of a 512-byte block, given axis count and packing width (packed: 4 bytes
per triaxial sample; unpacked: 2 bytes per axis). -/
def axBlockCapacity (axes packing : ℤ) : ℤ :=
  if packing = 0 then 120 else 480 / (2 * axes)

/-- Sign extension of a 16-bit word. -/
def sext16 (w : ℕ) : ℤ := if w % 65536 < 32768 then (w % 65536 : ℤ) else (w % 65536 : ℤ) - 65536

/-- Sign extension of a 10-bit field. -/
def sext10 (w : ℕ) : ℤ := if w % 1024 < 512 then (w % 1024 : ℤ) else (w % 1024 : ℤ) - 512 - 512

/-- Modelled from the spec: unpack one 32-bit packed word (two 16-bit words,
little-endian) into its three 10-bit axis values scaled by the 2-bit
exponent, in units of 1/256 g. -/
def axUnpackPacked (lo hi : ℕ) : List ℚ :=
  let u := lo % 65536 + 65536 * (hi % 65536)
  let e := u / 2 ^ 30
  [ (sext10 (u % 1024) * 2 ^ e : ℤ) / (256 : ℚ),
    (sext10 (u / 1024 % 1024) * 2 ^ e : ℤ) / (256 : ℚ),
    (sext10 (u / 2 ^ 20 % 1024) * 2 ^ e : ℤ) / (256 : ℚ) ]

/-- Modelled from the spec: unpack the declared number of samples of a block
into physical units according to its packing code. -/
def axUnpack (b : AXBlock) : List ℚ :=
  if b.packing = 0 then
    ((List.range b.nsamples.toNat).map
      (fun i => axUnpackPacked (b.words.getD (2 * i) 0) (b.words.getD (2 * i + 1) 0))).flatten
  else
    (b.words.take (b.nsamples.toNat * b.axes.toNat)).map (fun w => (sext16 w : ℚ) / 256)

/-- Modelled from the spec (§4.2): `axivity_read_block` (declared at header
lines 84-85; body not among the given sources).  Validates the block in the
spec's fail-fast order, skipping failed blocks; a checksum failure
additionally increments `n_bad_blocks`.  Returns the updated info struct, the
samples contributed by this block, and the error code. -/
def axivity_read_block (info : AX_Info_t) (b : AXBlock) :
    AX_Info_t × List ℚ × Read_Cwa_Error_t :=
  if b.axes ≠ info.axes then
    (info, [], .AX_READ_E_MISMATCH_N_AXES)
  else if axBlockCapacity b.axes b.packing < b.nsamples then
    (info, [], .AX_READ_E_INVALID_BLOCK_SAMPLES)
  else if ¬ axAxesPackedOk b.axes b.packing then
    (info, [], .AX_READ_E_BAD_AXES_PACKED)
  else if ¬ axPackingKnown b.packing then
    (info, [], .AX_READ_E_BAD_PACKING_CODE)
  else if axComputeChecksum b ≠ b.checksum then
    ({ info with n_bad_blocks := info.n_bad_blocks + 1 }, [], .AX_READ_E_BAD_CHECKSUM)
  else
    (info, axUnpack b, .AX_READ_E_NONE)

/-- Validation checks of `axivity_read_block` as an ordered list, written
directly from the spec's words ("Validation order (fail fast): (1) ... (5)"),
for comparison with the nested-conditional implementation model. -/
def axChecks (info : AX_Info_t) (b : AXBlock) : List (Bool × Read_Cwa_Error_t) :=
  [ (decide (b.axes = info.axes), .AX_READ_E_MISMATCH_N_AXES),
    (decide (b.nsamples ≤ axBlockCapacity b.axes b.packing), .AX_READ_E_INVALID_BLOCK_SAMPLES),
    (decide (axAxesPackedOk b.axes b.packing), .AX_READ_E_BAD_AXES_PACKED),
    (decide (axPackingKnown b.packing), .AX_READ_E_BAD_PACKING_CODE),
    (decide (axComputeChecksum b = b.checksum), .AX_READ_E_BAD_CHECKSUM) ]

/-- The error of the first failing check in the spec's validation order,
`AX_READ_E_NONE` when every check passes. -/
def axFirstFailing (info : AX_Info_t) (b : AXBlock) : Read_Cwa_Error_t :=
  (((axChecks info b).find? (fun c => ! c.1)).map Prod.snd).getD .AX_READ_E_NONE

/-- Modelled from the spec: whether a block passes validations (1)-(4) but
fails the checksum check (5), i.e. is counted in `n_bad_blocks` and skipped. -/
def axIsBadChecksumBlock (axes : ℤ) (b : AXBlock) : Prop :=
  b.axes = axes ∧ b.nsamples ≤ axBlockCapacity b.axes b.packing ∧
    axAxesPackedOk b.axes b.packing ∧ axPackingKnown b.packing ∧
    axComputeChecksum b ≠ b.checksum

instance (axes : ℤ) (b : AXBlock) : Decidable (axIsBadChecksumBlock axes b) := by
  unfold axIsBadChecksumBlock
  infer_instance

/-- Samples a single block contributes to the output stream of a decoder
whose header declared `axes` axes: the unpacked samples when every validation
passes, nothing when the block is skipped. -/
def axBlockSamples (axes : ℤ) (b : AXBlock) : List ℚ :=
  if b.axes = axes ∧ b.nsamples ≤ axBlockCapacity b.axes b.packing ∧
      axAxesPackedOk b.axes b.packing ∧ axPackingKnown b.packing ∧
      axComputeChecksum b = b.checksum then
    axUnpack b
  else []

/-- Number of checksum-failing (skipped and counted) blocks in a stream. -/
def axNBad (axes : ℤ) (blocks : List AXBlock) : ℕ :=
  blocks.countP (fun b => decide (axIsBadChecksumBlock axes b))

/-- Concatenated samples of a block stream. -/
def axSamples (axes : ℤ) (blocks : List AXBlock) : List ℚ :=
  blocks.flatMap (axBlockSamples axes)

/-- Modelled from the spec (§4.2, §7): the per-file block loop.  Every
block-level validation failure is skip-and-continue (non-fatal); the info
struct is threaded through the calls and each block's samples are appended
to the output stream. -/
def axivity_process (info : AX_Info_t) : List AXBlock → AX_Info_t × List ℚ
  | [] => (info, [])
  | b :: bs =>
    let r := axivity_read_block info b
    let rest := axivity_process r.1 bs
    (rest.1, r.2.1 ++ rest.2)

/-- Modelled from the spec (§4.2): validity of the fixed Axivity binary
header: its structural length (1024 bytes) and the magic signature bytes
`M`, `D` at the start. -/
def cwaMagicOk (raw : List ℕ) : Prop :=
  raw.length = 1024 ∧ raw.getD 0 0 = 77 ∧ raw.getD 1 0 = 68

instance (raw : List ℕ) : Decidable (cwaMagicOk raw) := by
  unfold cwaMagicOk
  infer_instance

/-- Axis count declared in the header (upper nibble of the axes/bytes-per-
sample byte). -/
def cwaHeaderAxes (raw : List ℕ) : ℤ := raw.getD 25 0 / 16

/-- Sampling-rate code byte of the header; the frequency it denotes is
`3200 / 2 ^ (15 - (code & 15))` Hz, which is positive for every code. -/
def cwaHeaderRate (raw : List ℕ) : ℕ := raw.getD 36 0

/-- Modelled from the spec (§4.2): `axivity_read_header` (declared at header
line 83; body not among the given sources).  Validates magic/signature and
structural length; on mismatch returns `AX_READ_E_BAD_HEADER` and populates
nothing (the `Except` result carries a `AX_Info_t` only on success).  On
success extracts device id, session id, declared frequency, axis count and
block count. -/
def axivity_read_header (raw : List ℕ) : Except Read_Cwa_Error_t AX_Info_t :=
  if cwaMagicOk raw then
    .ok
      { deviceId := (raw.getD 5 0 + 256 * raw.getD 6 0 : ℕ)
        sessionId := (raw.getD 7 0 + 256 * raw.getD 8 0 : ℕ)
        nblocks := (raw.getD 2 0 + 256 * raw.getD 3 0 : ℕ)
        axes := cwaHeaderAxes raw
        count := 0
        tLast := 0
        N := 0
        frequency := 3200 / 2 ^ (15 - cwaHeaderRate raw % 16)
        Nwin := 1
        max_days := (MAX_DAYS : ℕ)
        n_bad_blocks := 0 }
  else .error .AX_READ_E_BAD_HEADER

/-- Modelled from the spec: a whole-file Axivity decode session: read the
header, and only on success read the blocks; a bad header is fatal and no
block read occurs. -/
def ax_session (raw : List ℕ) (blocks : List AXBlock) :
    List ℚ × Read_Cwa_Error_t :=
  match axivity_read_header raw with
  | .error e => ([], e)
  | .ok info => ((axivity_process info blocks).2, .AX_READ_E_NONE)

/- ======================================
   GENEACTIV (header lines 88-141)
   ====================================== -/

/-- `#define GN_SAMPLES 300` from the header. -/
def GN_SAMPLES : ℕ := 300

/-- `Read_Bin_Error_t` enumeration from the header (lines 108-115). -/
inductive Read_Bin_Error_t where
  | GN_READ_E_NONE
  | GN_READ_E_BLOCK_TIMESTAMP
  | GN_READ_E_BLOCK_FS
  | GN_READ_E_BLOCK_FS_WARN
  | GN_READ_E_BLOCK_DATA
  | GN_READ_E_BLOCK_DATA_3600
deriving DecidableEq

/-- The decimal digits at the head of a character list. -/
def leadDigits (cs : List Char) : List Char := cs.takeWhile Char.isDigit

/-- Value of a list of decimal digits. -/
def digitsVal (cs : List Char) : ℕ := cs.foldl (fun a c => 10 * a + (c.toNat - 48)) 0

/-- Base-10 `strtol` with a detectable no-conversion outcome: skips leading
whitespace, accepts an optional sign, and converts the following decimal
digits; `none` is C's no-conversion-performed case.  This detectable variant
is used only by the modelled function bodies that are not among the given
sources (the page-timestamp step of `geneactiv_read_block`, which has the
`GN_READ_E_BLOCK_TIMESTAMP` outcome, and the header parsers).  The
`GN_DATE_*` macros themselves pass a `NULL` `endptr` and observe only
`strtol`'s plain value; see `strtol10val`. -/
def strtol10 (cs0 : List Char) : Option ℤ :=
  let cs := cs0.dropWhile (fun c => c == ' ' || c == '\t' || c == '\n' || c == '\r')
  match cs with
  | '-' :: rest =>
    if leadDigits rest = [] then none
    else some (-(digitsVal (leadDigits rest) : ℤ))
  | '+' :: rest =>
    if leadDigits rest = [] then none
    else some (digitsVal (leadDigits rest) : ℤ)
  | _ =>
    if leadDigits cs = [] then none
    else some (digitsVal (leadDigits cs) : ℤ)

/-- Value of a `strtol(ptr, NULL, 10)` call: the converted integer, `0`
when no conversion is performed.  With a `NULL` `endptr` the caller cannot
distinguish the no-conversion case from a genuine parsed `0`; this is the
semantics the `GN_DATE_*` macros observe.  (The model's input is the
character sequence the pointer designates; in the C program the 255-byte
`fgets` buffer may additionally retain characters of an earlier, longer
line beyond the current line's terminator.) -/
def strtol10val (cs : List Char) : ℤ := (strtol10 cs).getD 0

/-- `#define GN_DATE_YEAR(_v) strtol(&_v[10], NULL, 10)` from the header:
a plain `long`, `0` when the characters at offset 10 admit no conversion. -/
def GN_DATE_YEAR (v : List Char) : ℤ := strtol10val (v.drop 10)

/-- `#define GN_DATE_MONTH(_v) strtol(&_v[15], NULL, 10)` from the header. -/
def GN_DATE_MONTH (v : List Char) : ℤ := strtol10val (v.drop 15)

/-- `#define GN_DATE_DAY(_v) strtol(&_v[18], NULL, 10)` from the header. -/
def GN_DATE_DAY (v : List Char) : ℤ := strtol10val (v.drop 18)

/-- `#define GN_DATE_HOUR(_v) strtol(&_v[21], NULL, 10)` from the header. -/
def GN_DATE_HOUR (v : List Char) : ℤ := strtol10val (v.drop 21)

/-- `#define GN_DATE_MIN(_v) strtol(&_v[24], NULL, 10)` from the header. -/
def GN_DATE_MIN (v : List Char) : ℤ := strtol10val (v.drop 24)

/-- `#define GN_DATE_SEC(_v) strtol(&_v[27], NULL, 10)` from the header. -/
def GN_DATE_SEC (v : List Char) : ℤ := strtol10val (v.drop 27)

/-- `#define GN_DATE_MSEC(_v) strtol(&_v[30], NULL, 10)` from the header. -/
def GN_DATE_MSEC (v : List Char) : ℤ := strtol10val (v.drop 30)

/-- Decomposed date/time parsed from a GeneActiv page-timestamp line. -/
structure GNDate where
  year : ℤ
  month : ℤ
  day : ℤ
  time : Time_t
deriving DecidableEq

/-- Modelled from the spec: the page-timestamp read of
`geneactiv_read_block` step (1), whose body is not among the given sources
but which has the dedicated failure outcome `GN_READ_E_BLOCK_TIMESTAMP`
("issue reading timestamp from block").  It reads the seven date/time
fields at the fixed offsets of the `GN_DATE_*` macros, with a detectable
no-conversion outcome for each. -/
def parseGNTimestamp (v : List Char) : Option GNDate :=
  (strtol10 (v.drop 10)).bind fun y =>
  (strtol10 (v.drop 15)).bind fun mo =>
  (strtol10 (v.drop 18)).bind fun d =>
  (strtol10 (v.drop 21)).bind fun h =>
  (strtol10 (v.drop 24)).bind fun mi =>
  (strtol10 (v.drop 27)).bind fun s =>
  (strtol10 (v.drop 30)).bind fun ms =>
  some ⟨y, mo, d, ⟨h, mi, s, ms⟩⟩

/-- `GN_Info_t` struct from the header (lines 119-128): `fs_err` keeps track
of differing values of `fs` during block reading; the remaining fields are
header/calibration metadata. -/
structure GN_Info_t where
  fs : ℚ
  fs_err : ℤ
  gain : List ℚ
  offset : List ℚ
  volts : ℚ
  lux : ℚ
  npages : ℤ
  max_n : ℤ
deriving DecidableEq

/-- Modelled from the spec: one GeneActiv page: a textual timestamp line, the
page's declared sampling frequency, the page temperature, and the
fixed-width hexadecimal data payload (3600 characters when complete). -/
structure GNPage where
  tsLine : List Char
  pageFs : ℚ
  temp : ℚ
  payload : List Char
deriving DecidableEq

/-- Hexadecimal digit predicate for the page payload. -/
def isHexDigit (c : Char) : Bool :=
  (('0' ≤ c && c ≤ '9') || ('a' ≤ c && c ≤ 'f') || ('A' ≤ c && c ≤ 'F'))

/-- Value of a hexadecimal digit. -/
def hexVal (c : Char) : ℕ :=
  if '0' ≤ c && c ≤ '9' then c.toNat - 48
  else if 'a' ≤ c && c ≤ 'f' then c.toNat - 87
  else if 'A' ≤ c && c ≤ 'F' then c.toNat - 55
  else 0

/-- Value of a run of hexadecimal digits (most significant first). -/
def hexListVal (cs : List Char) : ℕ := cs.foldl (fun a c => 16 * a + hexVal c) 0

/-- Modelled from the spec: a payload is malformed when any character of the
3600-character page-data block is not a hexadecimal digit. -/
def gnMalformed (payload : List Char) : Prop :=
  ¬ ((payload.take 3600).all isHexDigit = true)

instance (payload : List Char) : Decidable (gnMalformed payload) := by
  unfold gnMalformed
  infer_instance

/-- Sign extension of a 12-bit raw sample field. -/
def sext12 (v : ℕ) : ℤ :=
  if v % 4096 < 2048 then (v % 4096 : ℤ) else (v % 4096 : ℤ) - 4096

/-- Raw 12-bit accelerometer field of sample `i`, axis `j` (each sample is 12
hexadecimal characters: three 12-bit axes, then 10 light bits and 2 status
bits). -/
def gnRawAccel (payload : List Char) (i j : ℕ) : ℕ :=
  hexListVal ((payload.drop (12 * i + 3 * j)).take 3)

/-- Raw 10-bit light field of sample `i` (the top 10 of the last 12 bits). -/
def gnRawLight (payload : List Char) (i : ℕ) : ℕ :=
  hexListVal ((payload.drop (12 * i + 9)).take 3) / 4

/-- Modelled from the spec: calibrated acceleration value for sample `i`,
axis `j`: per-axis gain/offset calibration of the raw sensor count. -/
def gnAccelVal (info : GN_Info_t) (payload : List Char) (i j : ℕ) : ℚ :=
  ((sext12 (gnRawAccel payload i j) : ℚ) * 100 - info.offset.getD j 0) / info.gain.getD j 0

/-- Modelled from the spec: the 900 calibrated acceleration values
(300 samples, 3 axes, interleaved) of a complete page payload. -/
def gnPageAccel (info : GN_Info_t) (payload : List Char) : List ℚ :=
  (List.range (3 * GN_SAMPLES)).map (fun k => gnAccelVal info payload (k / 3) (k % 3))

/-- Modelled from the spec: the 300 light values of a complete page payload,
scaled by the lux conversion constant. -/
def gnPageLight (info : GN_Info_t) (payload : List Char) : List ℚ :=
  (List.range GN_SAMPLES).map
    (fun i => (gnRawLight payload i : ℚ) * info.lux / info.volts)

/-- Modelled from the spec (§4.3): `geneactiv_read_block` (declared at header
line 141; body not among the given sources).  Steps, in order: (1) parse the
page timestamp; (2) compare the page's declared frequency with the header
frequency - a mismatch is fatal on the first page, a counted warning later;
(3) parse the 3600-character payload into 300 calibrated samples.  Returns
the updated info struct, the page's (acceleration, light) output, and the
error code. -/
def geneactiv_read_block (first : Bool) (info : GN_Info_t) (p : GNPage) :
    GN_Info_t × (List ℚ × List ℚ) × Read_Bin_Error_t :=
  if (parseGNTimestamp p.tsLine).isNone then
    (info, ([], []), .GN_READ_E_BLOCK_TIMESTAMP)
  else if p.pageFs ≠ info.fs ∧ first = true then
    (info, ([], []), .GN_READ_E_BLOCK_FS)
  else
    let info2 := if p.pageFs ≠ info.fs then { info with fs_err := info.fs_err + 1 } else info
    if p.payload.length < 3600 then
      (info2, ([], []), .GN_READ_E_BLOCK_DATA_3600)
    else if gnMalformed p.payload then
      (info2, ([], []), .GN_READ_E_BLOCK_DATA)
    else
      (info2, (gnPageAccel info2 p.payload, gnPageLight info2 p.payload),
        if p.pageFs ≠ info.fs then .GN_READ_E_BLOCK_FS_WARN else .GN_READ_E_NONE)

/-- Modelled from the spec: a fully valid page relative to header frequency
`fs`: its timestamp parses, its frequency matches, and its payload is a
complete well-formed 3600-character block. -/
def gnValidPage (fs : ℚ) (p : GNPage) : Prop :=
  (parseGNTimestamp p.tsLine).isSome ∧ p.pageFs = fs ∧
    ¬ (p.payload.length < 3600) ∧ ¬ gnMalformed p.payload

/-- Modelled from the spec (§4.3, §7): the per-file page loop.  A first-page
frequency mismatch (`GN_READ_E_BLOCK_FS`) is fatal and aborts the read; all
other page-level conditions are recorded and reading continues with the next
page. -/
def gn_process_aux (first : Bool) (info : GN_Info_t) :
    List GNPage → GN_Info_t × (List ℚ × List ℚ) × Read_Bin_Error_t
  | [] => (info, ([], []), .GN_READ_E_NONE)
  | p :: rest =>
    let r := geneactiv_read_block first info p
    if r.2.2 = .GN_READ_E_BLOCK_FS then (r.1, ([], []), .GN_READ_E_BLOCK_FS)
    else
      let rr := gn_process_aux false r.1 rest
      (rr.1, (r.2.1.1 ++ rr.2.1.1, r.2.1.2 ++ rr.2.1.2), rr.2.2)

/-- Modelled from the spec: whole-file GeneActiv page processing. -/
def gn_process (info : GN_Info_t) (pages : List GNPage) :
    GN_Info_t × (List ℚ × List ℚ) × Read_Bin_Error_t :=
  gn_process_aux true info pages

/- ======================================
   ACTIGRAPH (header lines 143-198)
   ====================================== -/

/-- `Read_Gt3x_Error_t` enumeration from the header (lines 153-162). -/
inductive Read_Gt3x_Error_t where
  | AG_READ_E_NONE
  | AG_READ_E_INFO_STAT
  | AG_READ_E_INFO_OPEN
  | AG_READ_E_LOG_OPEN
  | AG_READ_E_LOG_MULTIPLE_ACTIVITY_TYPES
  | AG_READ_E_OLD_ACTIVITY_OPEN
  | AG_READ_E_OLD_LUX_OPEN
  | AG_READ_E_MALLOC
deriving DecidableEq

/-- `AG_Info_t` struct from the header (lines 165-173): per-session
bookkeeping state (day counters, current sample cursor, flags). -/
structure AG_Info_t where
  debug : Bool
  is_old_version : Bool
  samples : ℤ
  n_days : ℤ
  ndi : ℤ
  current_sample : ℤ
  open_err : ℤ
deriving DecidableEq

/-- `AG_Version_t` struct from the header (lines 175-179). -/
structure AG_Version_t where
  major : ℤ
  minor : ℤ
  build : ℤ
deriving DecidableEq

/-- `AG_SensorInfo_t` struct from the header (lines 181-190): device metadata
populated from the archive's `info` entry. -/
structure AG_SensorInfo_t where
  serial : List Char
  sample_rate : ℤ
  start_time : ℚ
  stop_time : ℚ
  last_sample_time : ℚ
  download_time : ℚ
  accel_scale : ℚ
  firmware : AG_Version_t
deriving DecidableEq

/-- `AG_Data_t` struct from the header (lines 192-198): the caller-owned
output buffers of an ActiGraph decode. -/
structure AG_Data_t where
  ts : List ℚ
  acc : List ℚ
  lux : List ℚ
  day_starts : List ℕ
  day_stops : List ℕ
deriving DecidableEq

/-- Modelled from the spec: one record of the current-format unified log
entry: its internally-declared activity type and its raw sample payload. -/
structure AGRecord where
  type : ℕ
  payload : List ℚ
deriving DecidableEq

/-- Modelled from the spec (§4.4): decode one record: acceleration scaled by
`accel_scale`, appended at the current sample cursor; the sensor-info struct
is read-only. -/
def ag_read_record (si : AG_SensorInfo_t) (st : AG_Info_t) (r : AGRecord) :
    AG_SensorInfo_t × AG_Info_t × List ℚ :=
  (si,
    { st with current_sample := st.current_sample + r.payload.length },
    r.payload.map (· * si.accel_scale))

/-- Modelled from the spec (§4.4): processing of the current-format log
entry: a log whose records declare more than one distinct activity type is
rejected with `AG_READ_E_LOG_MULTIPLE_ACTIVITY_TYPES` before any sample is
written to the output buffers; otherwise every record is decoded in turn. -/
def ag_parse_log (si : AG_SensorInfo_t) (st : AG_Info_t) (data : AG_Data_t)
    (records : List AGRecord) : AG_Data_t × Read_Gt3x_Error_t :=
  let types := (records.map AGRecord.type).dedup
  if 1 < types.length then
    (data, .AG_READ_E_LOG_MULTIPLE_ACTIVITY_TYPES)
  else
    ({ data with
        acc := data.acc ++
          (records.flatMap (fun r => (ag_read_record si st r).2.2)) },
      .AG_READ_E_NONE)

/- ======================================
   HELPER LEMMAS
   ====================================== -/

/-- Length of a `flatMap` whose pieces all have the same length. -/
theorem length_flatMap_const {α β : Type} (l : List α) (f : α → List β) (k : ℕ)
    (h : ∀ a ∈ l, (f a).length = k) : (l.flatMap f).length = l.length * k := by
  induction l with
  | nil => simp
  | cons a l ih =>
    simp only [List.flatMap_cons, List.length_append, List.length_cons]
    rw [h a (List.mem_cons_self a l), ih (fun x hx => h x (List.mem_cons_of_mem a hx))]
    ring

/-- A `flatMap` of singletons is a `map`. -/
theorem flatMap_singleton_eq_map {α β : Type} (l : List α) (f : α → β) :
    (l.flatMap (fun a => [f a])) = l.map f := by
  induction l with
  | nil => rfl
  | cons a l ih => simp [List.flatMap_cons, ih]

/-- `dayPairs` with a single window definition is a map over the days found. -/
theorem dayPairs_single (ts : List ℚ) (b p : ℤ) (maxDays : ℕ) :
    dayPairs ts [(b, p)] maxDays =
      (daysPresent ts maxDays).map (fun d => windowPair ts d b p) := by
  unfold dayPairs
  exact flatMap_singleton_eq_map _ _

/-- Claim C2: for every timestamp sequence, well-formed windowing spec with
`n_windows > 0` and positive frequency, `get_day_indexing` produces day
start/stop arrays whose written length is exactly `n_windows * n_days_found`,
with `n_days_found` bounded by `max_days`, and a zero-length timestamp stream
yields zero windows (empty arrays, zero days) and no error. -/
theorem get_day_indexing_exact_lengths (fs : ℚ) (ts : List ℚ) (w : Window_t)
    (maxDays : ℕ) (hb : w.bases.length = w.n) (hp : w.periods.length = w.n)
    (hn : 0 < w.n) (hf : 0 < fs) :
    (get_day_indexing fs ts w maxDays).1.length =
      w.n * (get_day_indexing fs ts w maxDays).2.2 ∧
    (get_day_indexing fs ts w maxDays).2.1.length =
      w.n * (get_day_indexing fs ts w maxDays).2.2 ∧
    (get_day_indexing fs ts w maxDays).2.2 ≤ maxDays ∧
    (ts = [] →
      (get_day_indexing fs ts w maxDays).1 = [] ∧
      (get_day_indexing fs ts w maxDays).2.1 = [] ∧
      (get_day_indexing fs ts w maxDays).2.2 = 0) := by
  have hzip : (w.bases.zip w.periods).length = w.n := by
    rw [List.length_zip, hb, hp, Nat.min_self]
  have hlen : (dayPairs ts (w.bases.zip w.periods) maxDays).length =
      (daysPresent ts maxDays).length * w.n := by
    unfold dayPairs
    exact length_flatMap_const _ _ _ (fun d _ => by rw [List.length_map, hzip])
  refine ⟨?_, ?_, ?_, ?_⟩
  · simp only [get_day_indexing, List.length_map]
    rw [hlen, Nat.mul_comm]
  · simp only [get_day_indexing, List.length_map]
    rw [hlen, Nat.mul_comm]
  · simp only [get_day_indexing, daysPresent]
    rw [List.length_take]
    exact min_le_left _ _
  · intro h
    subst h
    refine ⟨?_, ?_, ?_⟩ <;>
      simp [get_day_indexing, dayPairs, daysPresent]

/-- Claim C2 witness: the theorem instantiated at a concrete 2-day stream,
a single 24-hour window, and 50 Hz. -/
theorem get_day_indexing_exact_lengths_witness :
    (get_day_indexing 50 [0, 43200, 90000] ⟨1, [0], [24]⟩ 25).1.length =
      1 * (get_day_indexing 50 [0, 43200, 90000] ⟨1, [0], [24]⟩ 25).2.2 ∧
    (get_day_indexing 50 [0, 43200, 90000] ⟨1, [0], [24]⟩ 25).2.1.length =
      1 * (get_day_indexing 50 [0, 43200, 90000] ⟨1, [0], [24]⟩ 25).2.2 ∧
    (get_day_indexing 50 [0, 43200, 90000] ⟨1, [0], [24]⟩ 25).2.2 ≤ 25 ∧
    ([0, 43200, 90000] = ([] : List ℚ) →
      (get_day_indexing 50 [0, 43200, 90000] ⟨1, [0], [24]⟩ 25).1 = [] ∧
      (get_day_indexing 50 [0, 43200, 90000] ⟨1, [0], [24]⟩ 25).2.1 = [] ∧
      (get_day_indexing 50 [0, 43200, 90000] ⟨1, [0], [24]⟩ 25).2.2 = 0) :=
  get_day_indexing_exact_lengths 50 [0, 43200, 90000] ⟨1, [0], [24]⟩ 25
    (by decide) (by decide) (by decide) (by norm_num)

/-- Claim C3: `axivity_read_block` validates in the spec's fail-fast order:
its error code is always the error of the first failing check in the ordered
list (axes match, sample count within capacity, supported axes-packing
layout, recognized packing code, checksum), and `AX_READ_E_NONE` when every
check passes. -/
theorem axivity_read_block_fail_fast (info : AX_Info_t) (b : AXBlock) :
    (axivity_read_block info b).2.2 = axFirstFailing info b := by
  unfold axivity_read_block axFirstFailing axChecks
  split_ifs with h1 h2 h3 h4 h5
  · simp [List.find?, decide_eq_false h1]
  · simp [List.find?, decide_eq_true (not_ne_iff.mp h1), decide_eq_false (not_le.mpr h2)]
  · simp [List.find?, decide_eq_true (not_ne_iff.mp h1), decide_eq_true (not_lt.mp h2),
      decide_eq_true h3, decide_eq_true h4, decide_eq_false h5]
  · simp [List.find?, decide_eq_true (not_ne_iff.mp h1), decide_eq_true (not_lt.mp h2),
      decide_eq_true h3, decide_eq_true h4, decide_eq_true (not_ne_iff.mp h5)]
  · simp [List.find?, decide_eq_true (not_ne_iff.mp h1), decide_eq_true (not_lt.mp h2),
      decide_eq_true h3, decide_eq_false h4]
  · simp [List.find?, decide_eq_true (not_ne_iff.mp h1), decide_eq_true (not_lt.mp h2),
      decide_eq_false h3]

/-- Components of one `axivity_read_block` call: the info struct is returned
unchanged except that `n_bad_blocks` counts a checksum-failing block, and the
samples contributed are `axBlockSamples`. -/
theorem axIsBadChecksumBlock_iff (axes : ℤ) (b : AXBlock) :
    axIsBadChecksumBlock axes b ↔
      (b.axes = axes ∧ b.nsamples ≤ axBlockCapacity b.axes b.packing ∧
        axAxesPackedOk b.axes b.packing ∧ axPackingKnown b.packing ∧
        axComputeChecksum b ≠ b.checksum) := Iff.rfl

theorem axBlockSamples_of_not (axes : ℤ) (b : AXBlock)
    (h : ¬ (b.axes = axes ∧ b.nsamples ≤ axBlockCapacity b.axes b.packing ∧
      axAxesPackedOk b.axes b.packing ∧ axPackingKnown b.packing ∧
      axComputeChecksum b = b.checksum)) : axBlockSamples axes b = [] := by
  unfold axBlockSamples
  exact if_neg h

theorem axBlockSamples_of_valid (axes : ℤ) (b : AXBlock)
    (h : b.axes = axes ∧ b.nsamples ≤ axBlockCapacity b.axes b.packing ∧
      axAxesPackedOk b.axes b.packing ∧ axPackingKnown b.packing ∧
      axComputeChecksum b = b.checksum) : axBlockSamples axes b = axUnpack b := by
  unfold axBlockSamples
  exact if_pos h

theorem axivity_read_block_components (info : AX_Info_t) (b : AXBlock) :
    (axivity_read_block info b).1 =
      { info with n_bad_blocks := info.n_bad_blocks +
          (if axIsBadChecksumBlock info.axes b then 1 else 0) } ∧
    (axivity_read_block info b).2.1 = axBlockSamples info.axes b := by
  by_cases hbad : axIsBadChecksumBlock info.axes b
  · obtain ⟨ha, hn, hp, hk, hc⟩ := (axIsBadChecksumBlock_iff _ _).mp hbad
    rw [if_pos hbad]
    unfold axivity_read_block
    rw [if_neg (not_ne_iff.mpr ha), if_neg (not_lt.mpr hn),
      if_neg (not_not_intro hp), if_neg (not_not_intro hk), if_pos hc]
    exact ⟨rfl, (axBlockSamples_of_not _ _ (fun hh => hc hh.2.2.2.2)).symm⟩
  · rw [if_neg hbad]
    unfold axivity_read_block
    split_ifs with h1 h2 h3 h4 h5
    · exact ⟨by simp, (axBlockSamples_of_not _ _ (fun hh => h1 hh.1)).symm⟩
    · exact ⟨by simp,
        (axBlockSamples_of_not _ _ (fun hh => not_le.mpr h2 hh.2.1)).symm⟩
    · exact absurd ((axIsBadChecksumBlock_iff _ _).mpr
        ⟨not_ne_iff.mp h1, not_lt.mp h2, h3, h4, h5⟩) hbad
    · exact ⟨by simp, (axBlockSamples_of_valid _ _
        ⟨not_ne_iff.mp h1, not_lt.mp h2, h3, h4, not_ne_iff.mp h5⟩).symm⟩
    · exact ⟨by simp, (axBlockSamples_of_not _ _ (fun hh => h4 hh.2.2.2.1)).symm⟩
    · exact ⟨by simp, (axBlockSamples_of_not _ _ (fun hh => h3 hh.2.2.1)).symm⟩

/-- The block loop threads the info struct (only `n_bad_blocks` evolves, by
the number of checksum-failing blocks) and concatenates per-block samples. -/
theorem axivity_process_components (blocks : List AXBlock) (info : AX_Info_t) :
    (axivity_process info blocks).1 =
      { info with n_bad_blocks := info.n_bad_blocks + (axNBad info.axes blocks : ℤ) } ∧
    (axivity_process info blocks).2 = axSamples info.axes blocks := by
  induction blocks generalizing info with
  | nil => simp [axivity_process, axNBad, axSamples]
  | cons b bs ih =>
    obtain ⟨h1, h2⟩ := axivity_read_block_components info b
    obtain ⟨ih1, ih2⟩ := ih (axivity_read_block info b).1
    constructor
    · show (axivity_process (axivity_read_block info b).1 bs).1 = _
      rw [ih1, h1]
      simp only [axNBad, List.countP_cons, decide_eq_true_eq]
      congr 1
      push_cast
      split_ifs <;> ring
    · show (axivity_read_block info b).2.1 ++
        (axivity_process (axivity_read_block info b).1 bs).2 = _
      rw [ih2, h2, h1]
      simp [axSamples, List.flatMap_cons]

/-- Concrete Axivity decoder info: triaxial, 100 Hz. -/
def axInfoEx : AX_Info_t :=
  { deviceId := 12345, sessionId := 1, nblocks := 3, axes := 3, count := 0,
    tLast := 0, N := 0, frequency := 100, Nwin := 1, max_days := 25,
    n_bad_blocks := 0 }

/-- Concrete block passing validations (1)-(4) whose stored checksum (999)
differs from the additive checksum of its words (300). -/
def axBadBlockEx : AXBlock :=
  { axes := 3, packing := 2, nsamples := 2, timestamp := 0,
    words := [100, 200], checksum := 999 }

/-- Concrete fully valid block (stored checksum 18 = 5 + 6 + 7). -/
def axGoodBlockEx : AXBlock :=
  { axes := 3, packing := 2, nsamples := 1, timestamp := 0,
    words := [5, 6, 7], checksum := 18 }

/-- Concrete block with mismatched axis count (6 against a triaxial header)
and a bad checksum (300 stored as 999). -/
def axMismatchBlockEx : AXBlock :=
  { axes := 6, packing := 2, nsamples := 2, timestamp := 0,
    words := [100, 200], checksum := 999 }

/-- Claim C1 counterexample: a block whose 16-bit additive checksum does not
equal the stored checksum but whose axis count also mismatches the header is
rejected as `AX_READ_E_MISMATCH_N_AXES` by the fail-fast validation order:
`axivity_read_block` does not return `AX_READ_E_BAD_CHECKSUM` for it and does
not increment `n_bad_blocks`, so the claim as stated (quantified over every
block with a checksum mismatch) fails at this input. -/
theorem c1_checksum_claim_counterexample :
    axComputeChecksum axMismatchBlockEx ≠ axMismatchBlockEx.checksum ∧
    (axivity_read_block axInfoEx axMismatchBlockEx).2.2 =
      .AX_READ_E_MISMATCH_N_AXES ∧
    (axivity_read_block axInfoEx axMismatchBlockEx).1.n_bad_blocks =
      axInfoEx.n_bad_blocks ∧
    Read_Cwa_Error_t.AX_READ_E_MISMATCH_N_AXES ≠ .AX_READ_E_BAD_CHECKSUM := by
  refine ⟨by decide, ?_, ?_, by decide⟩ <;> rfl

/-- Claim C1 (amended: restricted to blocks that pass the four validations
preceding the checksum check, as the fail-fast order dictates): such a block
is skipped (zero samples), `n_bad_blocks` is incremented by exactly 1,
`axivity_read_block` returns the non-fatal `AX_READ_E_BAD_CHECKSUM`, and in a
stream containing it every other (valid) block still contributes its samples:
one bad block never truncates the stream. -/
theorem axivity_bad_checksum_skip_count (info : AX_Info_t) (b : AXBlock)
    (bs1 bs2 : List AXBlock) (h : axIsBadChecksumBlock info.axes b) :
    axivity_read_block info b =
      ({ info with n_bad_blocks := info.n_bad_blocks + 1 }, [],
        .AX_READ_E_BAD_CHECKSUM) ∧
    (axivity_process info (bs1 ++ b :: bs2)).2 =
      axSamples info.axes bs1 ++ axSamples info.axes bs2 ∧
    (axivity_process info (bs1 ++ b :: bs2)).1.n_bad_blocks =
      info.n_bad_blocks + (axNBad info.axes bs1 : ℤ) + 1 +
        (axNBad info.axes bs2 : ℤ) := by
  obtain ⟨ha, hn, hp, hk, hc⟩ := h
  have hbad : axIsBadChecksumBlock info.axes b := ⟨ha, hn, hp, hk, hc⟩
  have hsamp : axBlockSamples info.axes b = [] := by
    unfold axBlockSamples
    rw [if_neg]
    intro hall
    exact hc hall.2.2.2.2
  refine ⟨?_, ?_, ?_⟩
  · unfold axivity_read_block
    rw [if_neg (not_ne_iff.mpr ha), if_neg (not_lt.mpr hn),
      if_neg (not_not_intro hp), if_neg (not_not_intro hk), if_pos hc]
  · rw [(axivity_process_components _ _).2]
    simp [axSamples, hsamp]
  · rw [(axivity_process_components _ _).1]
    simp only [axNBad, List.countP_append, List.countP_cons,
      decide_eq_true hbad]
    push_cast
    ring

/-- Claim C1 witness: the amended theorem instantiated with a concrete
checksum-failing block between two valid blocks. -/
theorem axivity_bad_checksum_skip_count_witness :
    axivity_read_block axInfoEx axBadBlockEx =
      ({ axInfoEx with n_bad_blocks := axInfoEx.n_bad_blocks + 1 }, [],
        .AX_READ_E_BAD_CHECKSUM) ∧
    (axivity_process axInfoEx
        ([axGoodBlockEx] ++ axBadBlockEx :: [axGoodBlockEx])).2 =
      axSamples axInfoEx.axes [axGoodBlockEx] ++
        axSamples axInfoEx.axes [axGoodBlockEx] ∧
    (axivity_process axInfoEx
        ([axGoodBlockEx] ++ axBadBlockEx :: [axGoodBlockEx])).1.n_bad_blocks =
      axInfoEx.n_bad_blocks + (axNBad axInfoEx.axes [axGoodBlockEx] : ℤ) + 1 +
        (axNBad axInfoEx.axes [axGoodBlockEx] : ℤ) :=
  axivity_bad_checksum_skip_count axInfoEx axBadBlockEx
    [axGoodBlockEx] [axGoodBlockEx] (by decide)

/-- A list containing two distinct elements has more than one element after
deduplication. -/
theorem one_lt_length_dedup {α : Type} [DecidableEq α] {a b : α} {l : List α}
    (ha : a ∈ l) (hb : b ∈ l) (hne : a ≠ b) : 1 < l.dedup.length := by
  have ha' := List.mem_dedup.mpr ha
  have hb' := List.mem_dedup.mpr hb
  rcases hd : l.dedup with _ | ⟨x, _ | ⟨y, ys⟩⟩
  · rw [hd] at ha'
    cases ha'
  · rw [hd] at ha' hb'
    rw [List.mem_singleton] at ha' hb'
    exact absurd (ha'.trans hb'.symm) hne
  · simp

/-- Claim C7: an ActiGraph log whose records declare more than one
internally-declared activity type is rejected with
`AG_READ_E_LOG_MULTIPLE_ACTIVITY_TYPES` before any sample is written: the
output buffers are returned unchanged. -/
theorem ag_multiple_activity_types_rejected (si : AG_SensorInfo_t)
    (st : AG_Info_t) (data : AG_Data_t) (records : List AGRecord)
    (r1 r2 : AGRecord) (h1 : r1 ∈ records) (h2 : r2 ∈ records)
    (hne : r1.type ≠ r2.type) :
    ag_parse_log si st data records =
      (data, .AG_READ_E_LOG_MULTIPLE_ACTIVITY_TYPES) := by
  unfold ag_parse_log
  rw [if_pos (one_lt_length_dedup (List.mem_map_of_mem AGRecord.type h1)
    (List.mem_map_of_mem AGRecord.type h2) hne)]

/-- Concrete ActiGraph sensor info. -/
def agSensorEx : AG_SensorInfo_t :=
  { serial := ['T', 'A', 'S'], sample_rate := 30, start_time := 0,
    stop_time := 0, last_sample_time := 0, download_time := 0,
    accel_scale := 1, firmware := ⟨1, 7, 2⟩ }

/-- Concrete ActiGraph bookkeeping state. -/
def agInfoStEx : AG_Info_t :=
  { debug := false, is_old_version := false, samples := 0, n_days := 0,
    ndi := 0, current_sample := 0, open_err := 0 }

/-- Concrete empty ActiGraph output buffers. -/
def agDataEx : AG_Data_t := { ts := [], acc := [], lux := [], day_starts := [], day_stops := [] }

/-- Concrete log with two distinct internally-declared activity types. -/
def agRecordsEx : List AGRecord := [⟨0, []⟩, ⟨1, []⟩]

/-- Claim C7 witness: the theorem instantiated at a concrete two-type log. -/
theorem ag_multiple_activity_types_rejected_witness :
    ag_parse_log agSensorEx agInfoStEx agDataEx agRecordsEx =
      (agDataEx, .AG_READ_E_LOG_MULTIPLE_ACTIVITY_TYPES) :=
  ag_multiple_activity_types_rejected agSensorEx agInfoStEx agDataEx
    agRecordsEx ⟨0, []⟩ ⟨1, []⟩ (by decide) (by decide) (by decide)

/-- Claim C8 counterexample: `n_bad_blocks` is a field of `AX_Info_t` (header
lines 51-63, "number of blocks with nonzero checksums"), and
`axivity_read_block` on a checksum-failing block modifies it, so the claim
that no field of the DeviceInfo struct is modified by a subsequent
`read_block` call fails at this input. -/
theorem c8_immutability_counterexample :
    (axivity_read_block axInfoEx axBadBlockEx).1.n_bad_blocks ≠
      axInfoEx.n_bad_blocks := by decide

/-- Claim C8 (amended: the metadata fields populated by `read_header` -
identifiers, frequency, calibration, declared counts, bounds - are never
modified by `read_block`/`read_record`; the per-session bookkeeping counters
kept in the same structs (`n_bad_blocks`, `fs_err`, the `AG_Info_t`
counters) are the only fields that may change, and the ActiGraph
`AG_SensorInfo_t` metadata struct is returned entirely unmodified). -/
theorem deviceinfo_metadata_immutable (info : AX_Info_t) (b : AXBlock)
    (first : Bool) (ginfo : GN_Info_t) (p : GNPage)
    (si : AG_SensorInfo_t) (st : AG_Info_t) (r : AGRecord) :
    ((axivity_read_block info b).1.deviceId = info.deviceId ∧
     (axivity_read_block info b).1.sessionId = info.sessionId ∧
     (axivity_read_block info b).1.nblocks = info.nblocks ∧
     (axivity_read_block info b).1.axes = info.axes ∧
     (axivity_read_block info b).1.count = info.count ∧
     (axivity_read_block info b).1.tLast = info.tLast ∧
     (axivity_read_block info b).1.N = info.N ∧
     (axivity_read_block info b).1.frequency = info.frequency ∧
     (axivity_read_block info b).1.Nwin = info.Nwin ∧
     (axivity_read_block info b).1.max_days = info.max_days) ∧
    ((geneactiv_read_block first ginfo p).1.fs = ginfo.fs ∧
     (geneactiv_read_block first ginfo p).1.gain = ginfo.gain ∧
     (geneactiv_read_block first ginfo p).1.offset = ginfo.offset ∧
     (geneactiv_read_block first ginfo p).1.volts = ginfo.volts ∧
     (geneactiv_read_block first ginfo p).1.lux = ginfo.lux ∧
     (geneactiv_read_block first ginfo p).1.npages = ginfo.npages ∧
     (geneactiv_read_block first ginfo p).1.max_n = ginfo.max_n) ∧
    (ag_read_record si st r).1 = si := by
  refine ⟨?_, ?_, rfl⟩
  · rw [(axivity_read_block_components info b).1]
    exact ⟨rfl, rfl, rfl, rfl, rfl, rfl, rfl, rfl, rfl, rfl⟩
  · unfold geneactiv_read_block
    split_ifs <;> exact ⟨rfl, rfl, rfl, rfl, rfl, rfl, rfl⟩

/-- Concrete structurally valid Axivity header: magic bytes `M`, `D` and
1024 bytes in all. -/
def cwaRawGoodEx : List ℕ := 77 :: 68 :: List.replicate 1022 0

/-- Concrete invalid Axivity header (wrong magic, wrong length). -/
def cwaRawBadEx : List ℕ := [1, 2, 3]

/-- Modelled from the spec (§4.3): one base-10 field of the line-oriented
GeneActiv text header, read from a fixed offset within a known line. -/
def gnField (lines : List (List Char)) (i off : ℕ) : Option ℤ :=
  strtol10 ((lines.getD i []).drop off)

/-- Modelled from the spec (§4.3): `geneactiv_read_header` (declared at
header line 140; body not among the given sources).  Fixed-offset substrings
within known lines encode the sampling frequency, the per-axis gain/offset
calibration coefficients (three of each, matching `double gain[3]` /
`double offset[3]` of `GN_Info_t`), the volts and lux conversion constants,
and the declared page count; a malformed or missing field - including a
non-positive frequency field - is a fatal parse error (`none`, the C
function's error return), and then no `GN_Info_t` is populated at all.  The
concrete line indices and the common offset 8 stand in for the format's
known lines. -/
def geneactiv_read_header (lines : List (List Char)) : Option GN_Info_t :=
  (gnField lines 1 8).bind fun fsv =>
  (gnField lines 2 8).bind fun g0 =>
  (gnField lines 3 8).bind fun g1 =>
  (gnField lines 4 8).bind fun g2 =>
  (gnField lines 5 8).bind fun o0 =>
  (gnField lines 6 8).bind fun o1 =>
  (gnField lines 7 8).bind fun o2 =>
  (gnField lines 8 8).bind fun vv =>
  (gnField lines 9 8).bind fun lx =>
  (gnField lines 10 8).bind fun np =>
  if 0 < fsv then
    some
      { fs := (fsv : ℚ), fs_err := 0,
        gain := [(g0 : ℚ), (g1 : ℚ), (g2 : ℚ)],
        offset := [(o0 : ℚ), (o1 : ℚ), (o2 : ℚ)],
        volts := (vv : ℚ), lux := (lx : ℚ), npages := np,
        max_n := (GN_SAMPLES : ℕ) * np }
  else none

/-- Modelled from the spec: a whole-file GeneActiv decode session: read the
text header and only on success read the pages; a fatal header parse error
means no page read occurs (`none`). -/
def gn_session (lines : List (List Char)) (pages : List GNPage) :
    Option (GN_Info_t × (List ℚ × List ℚ) × Read_Bin_Error_t) :=
  (geneactiv_read_header lines).map (fun info => gn_process info pages)

/-- Modelled from the spec (§4.4): the ActiGraph container as the decoder
sees it: whether the archive can be stat'ed, and the named `info` entry's
text lines when the archive can be opened. -/
structure AGArchive where
  stat_ok : Bool
  info_entry : Option (List (List Char))

/-- One base-10 field of the ActiGraph `info` entry, at the common fixed
offset 14 of line `i`. -/
def agInfoField (lines : List (List Char)) (i : ℕ) : Option ℤ :=
  strtol10 ((lines.getD i []).drop 14)

/-- Modelled from the spec (§4.4): well-formedness of the `info` entry: the
serial field is the complete 13 characters that `char serial[14]` declares,
every numeric field admits a conversion, and the sample rate is positive. -/
def agInfoFieldsOk (lines : List (List Char)) : Prop :=
  (((lines.getD 0 []).drop 14).take 13).length = 13 ∧
  (∀ i ∈ [1, 2, 3, 4, 5, 6, 7, 8, 9], (agInfoField lines i).isSome = true) ∧
  0 < (agInfoField lines 1).getD 0

instance (lines : List (List Char)) : Decidable (agInfoFieldsOk lines) := by
  unfold agInfoFieldsOk
  infer_instance

/-- Modelled from the spec (§4.4): parse of the `info` entry populating
`AG_SensorInfo_t`: the 13-character serial, sample rate,
start/stop/last-sample/download times, firmware version triple and accel
scale; a malformed or missing field - an incomplete serial or a
non-positive sample rate included - is a parse failure and no
`AG_SensorInfo_t` is populated. -/
def agParseInfo (lines : List (List Char)) : Option AG_SensorInfo_t :=
  if agInfoFieldsOk lines then
    some
      { serial := ((lines.getD 0 []).drop 14).take 13,
        sample_rate := (agInfoField lines 1).getD 0,
        start_time := ((agInfoField lines 2).getD 0 : ℚ),
        stop_time := ((agInfoField lines 3).getD 0 : ℚ),
        last_sample_time := ((agInfoField lines 4).getD 0 : ℚ),
        download_time := ((agInfoField lines 5).getD 0 : ℚ),
        accel_scale := ((agInfoField lines 9).getD 0 : ℚ),
        firmware :=
          ⟨(agInfoField lines 6).getD 0, (agInfoField lines 7).getD 0,
            (agInfoField lines 8).getD 0⟩ }
  else none

/-- Modelled from the spec (§4.4): the ActiGraph `read_header` path: failing
to stat the archive is `AG_READ_E_INFO_STAT`, failing to open or to parse
the `info` entry is `AG_READ_E_INFO_OPEN`; only on success is the
`AG_SensorInfo_t` populated (the `Except` carries one only then). -/
def actigraph_read_header (arch : AGArchive) :
    Except Read_Gt3x_Error_t AG_SensorInfo_t :=
  if arch.stat_ok = false then .error .AG_READ_E_INFO_STAT
  else
    match arch.info_entry.bind agParseInfo with
    | none => .error .AG_READ_E_INFO_OPEN
    | some si => .ok si

/-- Modelled from the spec: a whole-file ActiGraph decode session: read the
header and only on success read the log; a header failure returns the
output buffers unchanged with the header's error code (no log read). -/
def ag_session (arch : AGArchive) (st : AG_Info_t) (data : AG_Data_t)
    (records : List AGRecord) : AG_Data_t × Read_Gt3x_Error_t :=
  match actigraph_read_header arch with
  | .error e => (data, e)
  | .ok si => ag_parse_log si st data records

/-- Claim C6: for every format's `read_header`: a valid header yields a
DeviceInfo whose sampling frequency is positive and whose axis/channel
count matches the declared format (Axivity: the header's declared axis
count; GeneActiv: the three per-axis calibration entries declared as
`gain[3]`/`offset[3]`; ActiGraph: the complete 13-character serial of
`char serial[14]` and the firmware triple along with a positive sample
rate).  An invalid header yields the format's header-failure code - the
magic/signature check's `AX_READ_E_BAD_HEADER` for Axivity, the fatal
parse error (no info returned) for GeneActiv, `AG_READ_E_INFO_STAT` /
`AG_READ_E_INFO_OPEN` for ActiGraph - the DeviceInfo is never partially
populated (the `Except`/`Option` results carry one only on success), and
no further reads occur on that file (the session functions touch no block,
page or record). -/
theorem read_header_validation (raw : List ℕ) (blocks : List AXBlock)
    (glines : List (List Char)) (gpages : List GNPage)
    (arch : AGArchive) (st : AG_Info_t) (data : AG_Data_t)
    (records : List AGRecord) :
    (∀ info, axivity_read_header raw = .ok info →
      0 < info.frequency ∧ info.axes = cwaHeaderAxes raw) ∧
    (¬ cwaMagicOk raw →
      axivity_read_header raw = .error .AX_READ_E_BAD_HEADER ∧
      ax_session raw blocks = ([], .AX_READ_E_BAD_HEADER)) ∧
    (∀ info, geneactiv_read_header glines = some info →
      0 < info.fs ∧ info.gain.length = 3 ∧ info.offset.length = 3) ∧
    (geneactiv_read_header glines = none →
      gn_session glines gpages = none) ∧
    (∀ si, actigraph_read_header arch = .ok si →
      0 < si.sample_rate ∧ si.serial.length = 13) ∧
    (∀ e, actigraph_read_header arch = .error e →
      ag_session arch st data records = (data, e)) := by
  refine ⟨?_, ?_, ?_, ?_, ?_, ?_⟩
  · intro info h
    unfold axivity_read_header at h
    split_ifs at h with hm
    cases Except.ok.inj h
    exact ⟨div_pos (by norm_num) (pow_pos (by norm_num) _), rfl⟩
  · intro hm
    have he : axivity_read_header raw = .error .AX_READ_E_BAD_HEADER := by
      unfold axivity_read_header
      rw [if_neg hm]
    refine ⟨he, ?_⟩
    unfold ax_session
    rw [he]
  · intro info h
    unfold geneactiv_read_header at h
    simp only [Option.bind_eq_some] at h
    obtain ⟨fsv, _, g0, _, g1, _, g2, _, o0, _, o1, _, o2, _, vv, _, lx, _,
      np, _, h⟩ := h
    split_ifs at h with hpos
    cases Option.some.inj h
    refine ⟨?_, rfl, rfl⟩
    show (0 : ℚ) < ((fsv : ℤ) : ℚ)
    exact_mod_cast hpos
  · intro h
    unfold gn_session
    rw [h]
    rfl
  · intro si h
    unfold actigraph_read_header at h
    split_ifs at h with hstat
    rcases hb : arch.info_entry.bind agParseInfo with _ | si2
    · rw [hb] at h
      cases h
    · rw [hb] at h
      cases Except.ok.inj h
      obtain ⟨lines, _, hp⟩ := Option.bind_eq_some.mp hb
      unfold agParseInfo at hp
      split_ifs at hp with hok
      cases Option.some.inj hp
      exact ⟨hok.2.2, hok.1⟩
  · intro e h
    unfold ag_session
    rw [h]

/-- Concrete GeneActiv text header: frequency 100, per-axis gains and
offsets, volts, lux and page count at the fixed field offsets. -/
def gnHdrEx : List (List Char) :=
  [ "Device: GENEActiv".toList,
    "MFreq:  100".toList,
    "xGain:  2131".toList,
    "yGain:  2130".toList,
    "zGain:  2133".toList,
    "xOffs:  -21".toList,
    "yOffs:  10".toList,
    "zOffs:  11".toList,
    "Volts:  300".toList,
    "Lux:    911".toList,
    "Pages:  10".toList ]

/-- Concrete ActiGraph `info` entry (13-character serial, sample rate 30,
times, firmware triple, accel scale). -/
def agInfoLinesEx : List (List Char) :=
  [ "Serial Number:NEO1F16120000A".toList,
    "Sample Rate:  30".toList,
    "Start Date:   3600".toList,
    "Stop Date:    7200".toList,
    "Last Sample:  7200".toList,
    "Download Date:9000".toList,
    "Firmware Maj: 1".toList,
    "Firmware Min: 7".toList,
    "Firmware Bld: 2".toList,
    "Accel Scale:  256".toList ]

/-- Concrete openable ActiGraph archive with a well-formed `info` entry. -/
def agArchEx : AGArchive := { stat_ok := true, info_entry := some agInfoLinesEx }

/-- Concrete archive that cannot be stat'ed. -/
def agArchBadEx : AGArchive := { stat_ok := false, info_entry := none }

set_option maxRecDepth 8192 in
/-- Claim C6 witness: the theorem instantiated at concrete valid and
invalid headers of each of the three formats. -/
theorem read_header_validation_witness :
    (∃ info, axivity_read_header cwaRawGoodEx = .ok info ∧
      0 < info.frequency ∧ info.axes = cwaHeaderAxes cwaRawGoodEx) ∧
    (axivity_read_header cwaRawBadEx = .error .AX_READ_E_BAD_HEADER ∧
      ax_session cwaRawBadEx [] = ([], .AX_READ_E_BAD_HEADER)) ∧
    (∃ info, geneactiv_read_header gnHdrEx = some info ∧
      0 < info.fs ∧ info.gain.length = 3 ∧ info.offset.length = 3) ∧
    gn_session [] [] = none ∧
    (∃ si, actigraph_read_header agArchEx = .ok si ∧
      0 < si.sample_rate ∧ si.serial.length = 13) ∧
    ag_session agArchBadEx agInfoStEx agDataEx agRecordsEx =
      (agDataEx, .AG_READ_E_INFO_STAT) := by
  refine ⟨?_, ?_, ?_, ?_, ?_, ?_⟩
  · exact ⟨_, rfl,
      (read_header_validation cwaRawGoodEx [] [] [] agArchEx agInfoStEx
        agDataEx []).1 _ rfl⟩
  · exact (read_header_validation cwaRawBadEx [] [] [] agArchEx agInfoStEx
      agDataEx []).2.1 (by decide)
  · exact ⟨_, rfl,
      (read_header_validation [] [] gnHdrEx [] agArchEx agInfoStEx
        agDataEx []).2.2.1 _ rfl⟩
  · exact (read_header_validation [] [] [] [] agArchEx agInfoStEx
      agDataEx []).2.2.2.1 rfl
  · exact ⟨_, rfl,
      (read_header_validation [] [] [] [] agArchEx agInfoStEx
        agDataEx []).2.2.2.2.1 _ rfl⟩
  · exact (read_header_validation [] [] [] [] agArchBadEx agInfoStEx
      agDataEx agRecordsEx).2.2.2.2.2 .AG_READ_E_INFO_STAT rfl

/-- Accumulated acceleration output of a list of pages. -/
def gnAllAcc (info : GN_Info_t) (pages : List GNPage) : List ℚ :=
  pages.flatMap (fun p => gnPageAccel info p.payload)

/-- Accumulated light output of a list of pages. -/
def gnAllLight (info : GN_Info_t) (pages : List GNPage) : List ℚ :=
  pages.flatMap (fun p => gnPageLight info p.payload)

theorem gnPageAccel_update_fs_err (info : GN_Info_t) (x : ℤ) (l : List Char) :
    gnPageAccel { info with fs_err := x } l = gnPageAccel info l := rfl

theorem gnPageLight_update_fs_err (info : GN_Info_t) (x : ℤ) (l : List Char) :
    gnPageLight { info with fs_err := x } l = gnPageLight info l := rfl

theorem gnAllAcc_update_fs_err (info : GN_Info_t) (x : ℤ) (pages : List GNPage) :
    gnAllAcc { info with fs_err := x } pages = gnAllAcc info pages := rfl

theorem gnAllLight_update_fs_err (info : GN_Info_t) (x : ℤ) (pages : List GNPage) :
    gnAllLight { info with fs_err := x } pages = gnAllLight info pages := rfl

/-- A fully valid page decodes to its 300 samples with no error and no info
change, on any page position. -/
theorem geneactiv_read_block_valid (first : Bool) (info : GN_Info_t)
    (p : GNPage) (h : gnValidPage info.fs p) :
    geneactiv_read_block first info p =
      (info, (gnPageAccel info p.payload, gnPageLight info p.payload),
        .GN_READ_E_NONE) := by
  obtain ⟨hts, hfs, hlen, hmal⟩ := h
  obtain ⟨d, hd⟩ := Option.isSome_iff_exists.mp hts
  unfold geneactiv_read_block
  rw [hd]
  simp [hfs, hlen, hmal]

/-- A run of fully valid pages decodes to the concatenation of their
samples, leaving the info struct unchanged. -/
theorem gn_process_aux_valid (pages : List GNPage) :
    ∀ (first : Bool) (info : GN_Info_t),
      (∀ p ∈ pages, gnValidPage info.fs p) →
      gn_process_aux first info pages =
        (info, (gnAllAcc info pages, gnAllLight info pages),
          .GN_READ_E_NONE) := by
  induction pages with
  | nil => intro first info _; simp [gn_process_aux, gnAllAcc, gnAllLight]
  | cons p ps ih =>
    intro first info h
    have hp := h p (List.mem_cons_self p ps)
    have hps := fun q hq => h q (List.mem_cons_of_mem p hq)
    simp only [gn_process_aux]
    rw [geneactiv_read_block_valid first info p hp]
    simp only [reduceCtorEq, if_false]
    rw [ih false info hps]
    simp [gnAllAcc, gnAllLight, List.flatMap_cons]

/-- Processing a non-empty run of fully valid pages followed by anything:
the valid prefix decodes and processing continues (no longer first). -/
theorem gn_process_aux_append_valid (pages rest : List GNPage) :
    ∀ (first : Bool) (info : GN_Info_t),
      (∀ p ∈ pages, gnValidPage info.fs p) → pages ≠ [] →
      gn_process_aux first info (pages ++ rest) =
        ((gn_process_aux false info rest).1,
         (gnAllAcc info pages ++ (gn_process_aux false info rest).2.1.1,
          gnAllLight info pages ++ (gn_process_aux false info rest).2.1.2),
         (gn_process_aux false info rest).2.2) := by
  induction pages with
  | nil => intro _ _ _ hne; exact absurd rfl hne
  | cons p ps ih =>
    intro first info h _
    have hp := h p (List.mem_cons_self p ps)
    have hps := fun q hq => h q (List.mem_cons_of_mem p hq)
    simp only [List.cons_append, gn_process_aux]
    rw [geneactiv_read_block_valid first info p hp]
    simp only [reduceCtorEq, if_false]
    simp only [List.append_eq]
    rcases hcase : ps with _ | ⟨q, qs⟩
    · simp [gnAllAcc, gnAllLight, List.flatMap_cons]
    · rw [← hcase, ih false info hps (by rw [hcase]; exact List.cons_ne_nil q qs)]
      simp [gnAllAcc, gnAllLight, List.flatMap_cons, List.append_assoc]

/-- Concrete GeneActiv header info: 100 Hz, unit calibration. -/
def gnInfoEx : GN_Info_t :=
  { fs := 100, fs_err := 0, gain := [1, 1, 1], offset := [0, 0, 0],
    volts := 1, lux := 1, npages := 10, max_n := 3000 }

/-- Concrete page-timestamp line in the GeneActiv format. -/
def gnGoodLineEx : List Char := "Page Time:2016-05-12 09:21:13:456".toList

/-- Concrete page with an unparseable (empty) timestamp line, a mismatching
frequency (85 against a 100 Hz header), and a short payload. -/
def gnPageBadTsEx : GNPage :=
  { tsLine := [], pageFs := 85, temp := 0, payload := [] }

/-- Concrete fully valid page (3600 zero characters of payload). -/
def gnGoodPageEx : GNPage :=
  { tsLine := gnGoodLineEx, pageFs := 100, temp := 0,
    payload := List.replicate 3600 '0' }

/-- Concrete page valid except for its frequency (85 against 100 Hz). -/
def gnFsMismatchPageEx : GNPage :=
  { tsLine := gnGoodLineEx, pageFs := 85, temp := 0,
    payload := List.replicate 3600 '0' }

/-- Claim C4 counterexample: on the very first page, a sampling-frequency
mismatch combined with an unparseable timestamp line is reported as
`GN_READ_E_BLOCK_TIMESTAMP` (step 1 of the spec's order), not as the fatal
`GN_READ_E_BLOCK_FS`, so the claim as stated (any first-page frequency
mismatch returns `BLOCK_FS` and aborts) fails at this input. -/
theorem c4_first_page_fs_counterexample :
    gnPageBadTsEx.pageFs ≠ gnInfoEx.fs ∧
    (geneactiv_read_block true gnInfoEx gnPageBadTsEx).2.2 =
      .GN_READ_E_BLOCK_TIMESTAMP ∧
    Read_Bin_Error_t.GN_READ_E_BLOCK_TIMESTAMP ≠ .GN_READ_E_BLOCK_FS := by
  refine ⟨by norm_num [gnPageBadTsEx, gnInfoEx], ?_, by decide⟩
  rfl

/-- Claim C4 (amended: restricted to pages whose timestamp line parses, as
step 1 of the page decode order requires): a frequency mismatch on the very
first page is fatal - `gn_process` returns `GN_READ_E_BLOCK_FS` and no
samples at all - while the identical mismatch on a later page merely returns
the warning `GN_READ_E_BLOCK_FS_WARN` from `geneactiv_read_block`, increments
`fs_err`, and does not abort: every other (valid) page before and after the
mismatching one still decodes. -/
theorem gn_first_page_fs_fatal_later_warn (info : GN_Info_t) (p q0 : GNPage)
    (qs bs2 : List GNPage)
    (hts : (parseGNTimestamp p.tsLine).isSome)
    (hfs : p.pageFs ≠ info.fs)
    (hlen : ¬ (p.payload.length < 3600)) (hmal : ¬ gnMalformed p.payload)
    (hbs1 : ∀ r ∈ q0 :: qs, gnValidPage info.fs r)
    (hbs2 : ∀ r ∈ bs2, gnValidPage info.fs r) :
    gn_process info (p :: bs2) = (info, ([], []), .GN_READ_E_BLOCK_FS) ∧
    (geneactiv_read_block false info p).2.2 = .GN_READ_E_BLOCK_FS_WARN ∧
    (geneactiv_read_block false info p).1.fs_err = info.fs_err + 1 ∧
    gn_process info ((q0 :: qs) ++ p :: bs2) =
      ({ info with fs_err := info.fs_err + 1 },
       (gnAllAcc info (q0 :: qs) ++ gnPageAccel info p.payload ++
          gnAllAcc info bs2,
        gnAllLight info (q0 :: qs) ++ gnPageLight info p.payload ++
          gnAllLight info bs2),
       .GN_READ_E_NONE) := by
  obtain ⟨d, hd⟩ := Option.isSome_iff_exists.mp hts
  have hrb1 : geneactiv_read_block true info p =
      (info, ([], []), .GN_READ_E_BLOCK_FS) := by
    unfold geneactiv_read_block
    rw [hd]
    simp [hfs]
  have hrb2 : geneactiv_read_block false info p =
      ({ info with fs_err := info.fs_err + 1 },
       (gnPageAccel info p.payload, gnPageLight info p.payload),
       .GN_READ_E_BLOCK_FS_WARN) := by
    unfold geneactiv_read_block
    rw [hd]
    simp [hfs, hlen, hmal, gnPageAccel_update_fs_err, gnPageLight_update_fs_err]
  have hstep : gn_process_aux false info (p :: bs2) =
      ({ info with fs_err := info.fs_err + 1 },
       (gnPageAccel info p.payload ++ gnAllAcc info bs2,
        gnPageLight info p.payload ++ gnAllLight info bs2),
       .GN_READ_E_NONE) := by
    simp only [gn_process_aux]
    rw [hrb2]
    simp only [reduceCtorEq, if_false]
    rw [gn_process_aux_valid bs2 false { info with fs_err := info.fs_err + 1 }
      (fun q hq => hbs2 q hq)]
    rw [gnAllAcc_update_fs_err, gnAllLight_update_fs_err]
  refine ⟨?_, by rw [hrb2], by rw [hrb2], ?_⟩
  · unfold gn_process
    simp only [gn_process_aux]
    rw [hrb1]
    simp
  · unfold gn_process
    rw [gn_process_aux_append_valid (q0 :: qs) (p :: bs2) true info hbs1
      (List.cons_ne_nil q0 qs), hstep]
    simp [List.append_assoc]

/-- The all-zeros payload is a well-formed 3600-character page-data block. -/
theorem gnZerosNotMalformed : ¬ gnMalformed (List.replicate 3600 '0') := by
  rw [gnMalformed, List.take_replicate, not_not, List.all_eq_true]
  intro c hc
  rw [List.eq_of_mem_replicate hc]
  decide

/-- The all-zeros payload has the full 3600-character length. -/
theorem gnZerosFullLength : ¬ ((List.replicate 3600 '0').length < 3600) := by
  rw [List.length_replicate]
  omega

/-- The concrete good page is fully valid for the concrete header. -/
theorem gnGoodPageEx_valid : gnValidPage gnInfoEx.fs gnGoodPageEx :=
  ⟨rfl, rfl, gnZerosFullLength, gnZerosNotMalformed⟩

/-- Claim C4 witness: the amended theorem instantiated with the concrete
100 Hz header, a frequency-85 page, and valid pages around it. -/
theorem gn_first_page_fs_fatal_later_warn_witness :
    gn_process gnInfoEx (gnFsMismatchPageEx :: [gnGoodPageEx]) =
      (gnInfoEx, ([], []), .GN_READ_E_BLOCK_FS) ∧
    (geneactiv_read_block false gnInfoEx gnFsMismatchPageEx).2.2 =
      .GN_READ_E_BLOCK_FS_WARN ∧
    (geneactiv_read_block false gnInfoEx gnFsMismatchPageEx).1.fs_err =
      gnInfoEx.fs_err + 1 ∧
    gn_process gnInfoEx
        (([gnGoodPageEx]) ++ gnFsMismatchPageEx :: [gnGoodPageEx]) =
      ({ gnInfoEx with fs_err := gnInfoEx.fs_err + 1 },
       (gnAllAcc gnInfoEx [gnGoodPageEx] ++
          gnPageAccel gnInfoEx gnFsMismatchPageEx.payload ++
          gnAllAcc gnInfoEx [gnGoodPageEx],
        gnAllLight gnInfoEx [gnGoodPageEx] ++
          gnPageLight gnInfoEx gnFsMismatchPageEx.payload ++
          gnAllLight gnInfoEx [gnGoodPageEx]),
       .GN_READ_E_NONE) :=
  gn_first_page_fs_fatal_later_warn gnInfoEx gnFsMismatchPageEx gnGoodPageEx
    [] [gnGoodPageEx]
    rfl
    (by norm_num [gnFsMismatchPageEx, gnInfoEx])
    gnZerosFullLength
    gnZerosNotMalformed
    (fun r hr => by rw [List.mem_singleton] at hr; rw [hr]; exact gnGoodPageEx_valid)
    (fun r hr => by rw [List.mem_singleton] at hr; rw [hr]; exact gnGoodPageEx_valid)

/-- Claim C9 counterexample: a page whose payload is shorter than 3600
characters but whose timestamp line is unparseable returns
`GN_READ_E_BLOCK_TIMESTAMP` (step 1 precedes step 3), not
`GN_READ_E_BLOCK_DATA_3600`, so the claim's "whenever the payload is shorter
than the fixed 3600-character block" quantification fails at this input. -/
theorem c9_payload_3600_counterexample :
    gnPageBadTsEx.payload.length < 3600 ∧
    (geneactiv_read_block true gnInfoEx gnPageBadTsEx).2.2 =
      .GN_READ_E_BLOCK_TIMESTAMP ∧
    Read_Bin_Error_t.GN_READ_E_BLOCK_TIMESTAMP ≠
      .GN_READ_E_BLOCK_DATA_3600 :=
  ⟨by decide, rfl, by decide⟩

/-- Claim C9 (amended: restricted to pages reaching the payload step, i.e.
whose timestamp parses and which are not a fatal first-page frequency
mismatch): `geneactiv_read_block` returns `GN_READ_E_BLOCK_DATA_3600`
whenever the payload is shorter than the fixed 3600-character page-data
block, `GN_READ_E_BLOCK_DATA` on a malformed (non-hexadecimal) payload, and
otherwise parses the 300-sample payload, applying per-axis gain/offset
calibration to each acceleration value and the lux conversion constant to
each light value. -/
theorem gn_payload_parse_and_errors (first : Bool) (info : GN_Info_t)
    (p : GNPage) (hts : (parseGNTimestamp p.tsLine).isSome)
    (hnf : ¬ (p.pageFs ≠ info.fs ∧ first = true)) :
    (p.payload.length < 3600 →
      (geneactiv_read_block first info p).2.1 = ([], []) ∧
      (geneactiv_read_block first info p).2.2 = .GN_READ_E_BLOCK_DATA_3600) ∧
    (¬ (p.payload.length < 3600) → gnMalformed p.payload →
      (geneactiv_read_block first info p).2.1 = ([], []) ∧
      (geneactiv_read_block first info p).2.2 = .GN_READ_E_BLOCK_DATA) ∧
    (¬ (p.payload.length < 3600) → ¬ gnMalformed p.payload →
      (geneactiv_read_block first info p).2.1 =
        (gnPageAccel info p.payload, gnPageLight info p.payload) ∧
      ((geneactiv_read_block first info p).2.2 = .GN_READ_E_BLOCK_FS_WARN ∨
       (geneactiv_read_block first info p).2.2 = .GN_READ_E_NONE)) ∧
    (gnPageAccel info p.payload).length = 3 * GN_SAMPLES ∧
    (gnPageLight info p.payload).length = GN_SAMPLES ∧
    (∀ i j, i < GN_SAMPLES → j < 3 →
      (gnPageAccel info p.payload).getD (3 * i + j) 0 =
        ((sext12 (gnRawAccel p.payload i j) : ℚ) * 100 -
            info.offset.getD j 0) / info.gain.getD j 0) ∧
    (∀ i, i < GN_SAMPLES →
      (gnPageLight info p.payload).getD i 0 =
        (gnRawLight p.payload i : ℚ) * info.lux / info.volts) := by
  obtain ⟨d, hd⟩ := Option.isSome_iff_exists.mp hts
  refine ⟨?_, ?_, ?_, ?_, ?_, ?_, ?_⟩
  · intro hshort
    unfold geneactiv_read_block
    rw [hd]
    constructor <;> simp [hnf, hshort]
  · intro hlong hmal
    unfold geneactiv_read_block
    rw [hd]
    constructor <;> simp [hnf, hlong, hmal]
  · intro hlong hmal
    unfold geneactiv_read_block
    rw [hd]
    by_cases hfs : p.pageFs = info.fs
    · constructor <;>
        simp [hnf, hlong, hmal, hfs, gnPageAccel_update_fs_err,
          gnPageLight_update_fs_err]
    · have hfirst : first = false := by
        cases first
        · rfl
        · exact absurd ⟨hfs, rfl⟩ hnf
      subst hfirst
      constructor <;>
        simp [hlong, hmal, hfs, gnPageAccel_update_fs_err,
          gnPageLight_update_fs_err]
  · simp [gnPageAccel]
  · simp [gnPageLight]
  · intro i j hi hj
    unfold GN_SAMPLES at hi
    have hk : 3 * i + j < 3 * GN_SAMPLES := by unfold GN_SAMPLES; omega
    have hdiv : (3 * i + j) / 3 = i := by omega
    have hmod : (3 * i + j) % 3 = j := by omega
    simp [gnPageAccel, List.getD, List.getElem?_map, List.getElem?_range, hk,
      gnAccelVal, hdiv, hmod]
  · intro i hi
    simp [gnPageLight, List.getD, List.getElem?_map, List.getElem?_range, hi]

/-- Concrete page with a valid timestamp line, matching frequency, and a
payload of a single character (shorter than 3600). -/
def gnShortPageEx : GNPage :=
  { tsLine := gnGoodLineEx, pageFs := 100, temp := 0, payload := ['0'] }

/-- Claim C9 witness: the amended theorem instantiated at a concrete short
page: the error is specifically `GN_READ_E_BLOCK_DATA_3600`. -/
theorem gn_payload_parse_and_errors_witness :
    (geneactiv_read_block false gnInfoEx gnShortPageEx).2.1 = ([], []) ∧
    (geneactiv_read_block false gnInfoEx gnShortPageEx).2.2 =
      .GN_READ_E_BLOCK_DATA_3600 :=
  (gn_payload_parse_and_errors false gnInfoEx gnShortPageEx rfl
    (by simp)).1 (by decide)

/-- Concrete page-timestamp line with a non-numeric character at the
millisecond offset (30). -/
def gnBadMsecLineEx : List Char := "Page Time:2016-05-12 09:21:13:x56".toList

/-- Concrete page-timestamp line whose millisecond field is a genuine
parsed `0`. -/
def gnZeroMsecLineEx : List Char := "Page Time:2016-05-12 09:21:13:0".toList

/-- Claim C10 counterexample: the `GN_DATE_*` macros pass a `NULL` `endptr`
to `strtol`, so no parse failure is observable.  The millisecond macro
returns the plain value `0` both for the empty (too-short) line and for a
line with a non-numeric character at offset 30, exactly the value it
returns for a line whose millisecond field is a genuine `0`: a line shorter
than the offsets does not "yield a timestamp parse failure" - it yields a
silent `0` indistinguishable from a parsed `0`. -/
theorem c10_silent_strtol_counterexample :
    GN_DATE_MSEC [] = 0 ∧
    GN_DATE_MSEC gnBadMsecLineEx = 0 ∧
    GN_DATE_MSEC gnZeroMsecLineEx = 0 ∧
    30 < gnZeroMsecLineEx.length :=
  ⟨rfl, rfl, rfl, by decide⟩

/-- Claim C10 (amended: the decomposed date/time fields are parsed as
base-10 integers from the fixed character offsets year 10, month 15, day
18, hour 21, minute 24, second 27, millisecond 30; each field's value
depends only on the characters from its offset on - never a shifted read -
but because the macros discard `strtol`'s `endptr`, a line shorter than
these offsets or with non-numeric characters there yields the silent
no-conversion value `0`, not a detectable parse failure). -/
theorem gn_date_fixed_offsets_silent_zero (v w : List Char) :
    (GN_DATE_YEAR gnGoodLineEx = 2016 ∧
     GN_DATE_MONTH gnGoodLineEx = 5 ∧
     GN_DATE_DAY gnGoodLineEx = 12 ∧
     GN_DATE_HOUR gnGoodLineEx = 9 ∧
     GN_DATE_MIN gnGoodLineEx = 21 ∧
     GN_DATE_SEC gnGoodLineEx = 13 ∧
     GN_DATE_MSEC gnGoodLineEx = 456) ∧
    (v.length ≤ 30 → GN_DATE_MSEC v = 0) ∧
    GN_DATE_MSEC gnBadMsecLineEx = 0 ∧
    (v.drop 10 = w.drop 10 → GN_DATE_YEAR v = GN_DATE_YEAR w) ∧
    (v.drop 30 = w.drop 30 → GN_DATE_MSEC v = GN_DATE_MSEC w) := by
  refine ⟨⟨rfl, rfl, rfl, rfl, rfl, rfl, rfl⟩, ?_, rfl, ?_, ?_⟩
  · intro hv
    unfold GN_DATE_MSEC strtol10val
    rw [List.drop_eq_nil_of_le hv]
    rfl
  · intro h
    unfold GN_DATE_YEAR
    rw [h]
  · intro h
    unfold GN_DATE_MSEC
    rw [h]

/-- Concrete line agreeing with the good line from offset 10 on but
differing before it. -/
def gnShiftCheckLineEx : List Char :=
  "##########2016-05-12 09:21:13:456".toList

/-- Claim C10 witness: the amended theorem instantiated at the empty line
(silent `0`) and at two lines agreeing from offset 10 on (equal year,
no shifted read). -/
theorem gn_date_fixed_offsets_silent_zero_witness :
    GN_DATE_MSEC [] = 0 ∧
    GN_DATE_YEAR gnShiftCheckLineEx = GN_DATE_YEAR gnGoodLineEx :=
  ⟨(gn_date_fixed_offsets_silent_zero [] []).2.1 (by decide),
   (gn_date_fixed_offsets_silent_zero gnShiftCheckLineEx
     gnGoodLineEx).2.2.2.1 (by decide)⟩

/-- The day number is monotone in the timestamp. -/
theorem dayOf_mono {a b : ℚ} (h : a ≤ b) : dayOf a ≤ dayOf b := by
  unfold dayOf
  apply Int.floor_le_floor
  have hpos : (0 : ℚ) < DAYSEC := by norm_num [DAYSEC]
  exact (div_le_div_iff_of_pos_right hpos).mpr h

/-- In a non-decreasing list, earlier entries are at most later ones. -/
theorem sorted_getElem_mono (ts : List ℚ) (hs : List.Pairwise (· ≤ ·) ts)
    {i j : ℕ} (hi : i < ts.length) (hj : j < ts.length) (hij : i ≤ j) :
    ts[i] ≤ ts[j] := by
  rcases Nat.eq_or_lt_of_le hij with rfl | hlt
  · exact le_refl _
  · exact List.pairwise_iff_getElem.mp hs i j hi hj hlt

/-- In a time-ordered stream, day numbers are monotone in the index. -/
theorem day_getElem_mono (ts : List ℚ) (hs : List.Pairwise (· ≤ ·) ts)
    {i j : ℕ} (hi : i < ts.length) (hj : j < ts.length) (hij : i ≤ j) :
    dayOf ts[i] ≤ dayOf ts[j] :=
  dayOf_mono (sorted_getElem_mono ts hs hi hj hij)

/-- In a time-ordered stream, every index of day `d` lies strictly before
`firstAfterDay ts d`. -/
theorem lt_firstAfterDay (ts : List ℚ) (hs : List.Pairwise (· ≤ ·) ts)
    {d : ℤ} {i : ℕ} (hi : i < ts.length) (hd : dayOf (ts[i]) = d) :
    i < firstAfterDay ts d := by
  unfold firstAfterDay
  apply List.lt_findIdx_of_not hi
  intro j hji hc
  rw [List.get_eq_getElem] at hc
  have hjl : j < ts.length := lt_of_le_of_lt hji hi
  have hlt : d < dayOf (ts[j]) := of_decide_eq_true hc
  have hmono : dayOf (ts[j]) ≤ dayOf (ts[i]) :=
    day_getElem_mono ts hs hjl hi hji
  rw [hd] at hmono
  exact absurd (lt_of_lt_of_le hlt hmono) (lt_irrefl d)

/-- In a time-ordered stream containing day `d`, `endOfDay ts d` is a valid
index, lies at or after every day-`d` index, and itself belongs to day `d`. -/
theorem endOfDay_spec (ts : List ℚ) (hs : List.Pairwise (· ≤ ·) ts)
    {d : ℤ} {i : ℕ} (hi : i < ts.length) (hd : dayOf (ts[i]) = d) :
    endOfDay ts d < ts.length ∧ i ≤ endOfDay ts d ∧
      dayOf (ts.getD (endOfDay ts d) 0) = d := by
  have hig : i < firstAfterDay ts d := lt_firstAfterDay ts hs hi hd
  have hgle : firstAfterDay ts d ≤ ts.length := by
    unfold firstAfterDay
    exact List.findIdx_le_length _
  have h1 : endOfDay ts d < ts.length := by unfold endOfDay; omega
  have h2 : i ≤ endOfDay ts d := by unfold endOfDay; omega
  refine ⟨h1, h2, ?_⟩
  rw [List.getD_eq_getElem ts 0 h1]
  have heodlt : endOfDay ts d < ts.findIdx (fun t => decide (d < dayOf t)) := by
    have : endOfDay ts d < firstAfterDay ts d := by unfold endOfDay; omega
    unfold firstAfterDay at this
    exact this
  have hnot := List.not_of_lt_findIdx heodlt
  have hle : dayOf (ts[endOfDay ts d]) ≤ d :=
    not_lt.mp (of_decide_eq_false hnot)
  have hge := day_getElem_mono ts hs hi h1 h2
  omega

/-- When `windowStart` finds an index, that index belongs to day `d`. -/
theorem windowStart_day (ts : List ℚ) {d b : ℤ}
    (h : windowStart ts d b < ts.length) :
    dayOf (ts.getD (windowStart ts d b) 0) = d := by
  unfold windowStart at h ⊢
  rw [List.getD_eq_getElem ts 0 h]
  have hp := @List.findIdx_getElem ℚ
    (fun t => dayOf t == d && decide ((3600 * b : ℚ) ≤ timeOfDay t)) ts h
  simp only [Bool.and_eq_true] at hp
  exact eq_of_beq hp.1

/-- Every day pair of a time-ordered stream is well-formed: `start ≤ stop`,
`stop` is a valid index, and both endpoints belong to the pair's day. -/
theorem windowPair_spec (ts : List ℚ) (hs : List.Pairwise (· ≤ ·) ts)
    (b p : ℤ) {d : ℤ} (hd : d ∈ ts.map dayOf) :
    (windowPair ts d b p).1 ≤ (windowPair ts d b p).2 ∧
    (windowPair ts d b p).2 < ts.length ∧
    dayOf (ts.getD (windowPair ts d b p).1 0) = d ∧
    dayOf (ts.getD (windowPair ts d b p).2 0) = d := by
  obtain ⟨t, ht, hdt⟩ := List.mem_map.mp hd
  obtain ⟨i, hi, hti⟩ := List.mem_iff_getElem.mp ht
  have hdi : dayOf (ts[i]) = d := by rw [hti]; exact hdt
  obtain ⟨helen, _, heday⟩ := endOfDay_spec ts hs hi hdi
  by_cases hsl : windowStart ts d b < ts.length
  · have hpair : windowPair ts d b p =
        (windowStart ts d b,
          min
            (windowStart ts d b + 1 +
              (ts.drop (windowStart ts d b + 1)).findIdx
                (fun t =>
                  decide (ts.getD (windowStart ts d b) 0 + (3600 * p : ℚ) ≤ t)))
            (endOfDay ts d)) := by
      unfold windowPair
      rw [if_pos hsl]
    have hsday : dayOf (ts.getD (windowStart ts d b) 0) = d :=
      windowStart_day ts hsl
    have hsday' : dayOf (ts[windowStart ts d b]) = d := by
      rw [← List.getD_eq_getElem ts 0 hsl]
      exact hsday
    obtain ⟨_, hsle, _⟩ := endOfDay_spec ts hs hsl hsday'
    rw [hpair]
    simp only
    set e1 := windowStart ts d b + 1 +
      (ts.drop (windowStart ts d b + 1)).findIdx
        (fun t =>
          decide (ts.getD (windowStart ts d b) 0 + (3600 * p : ℚ) ≤ t)) with he1
    have hminle : min e1 (endOfDay ts d) ≤ endOfDay ts d := min_le_right _ _
    have hminge : windowStart ts d b ≤ min e1 (endOfDay ts d) :=
      le_min (by omega) hsle
    have hstoplt : min e1 (endOfDay ts d) < ts.length :=
      lt_of_le_of_lt hminle helen
    refine ⟨hminge, hstoplt, hsday, ?_⟩
    have hle1 : dayOf (ts[windowStart ts d b]) ≤
        dayOf (ts[min e1 (endOfDay ts d)]) :=
      day_getElem_mono ts hs hsl hstoplt hminge
    have hle2 : dayOf (ts[min e1 (endOfDay ts d)]) ≤
        dayOf (ts[endOfDay ts d]) :=
      day_getElem_mono ts hs hstoplt helen hminle
    rw [hsday'] at hle1
    rw [← List.getD_eq_getElem ts 0 helen, heday] at hle2
    rw [List.getD_eq_getElem ts 0 hstoplt]
    omega
  · have hpair : windowPair ts d b p = (endOfDay ts d, endOfDay ts d) := by
      unfold windowPair
      rw [if_neg hsl]
    rw [hpair]
    exact ⟨le_refl _, helen, heday, heday⟩

/-- Pairs of strictly earlier days end strictly before pairs of later days
begin (time-ordered stream). -/
theorem windowPair_cross (ts : List ℚ) (hs : List.Pairwise (· ≤ ·) ts)
    (b p : ℤ) {d1 d2 : ℤ} (h1 : d1 ∈ ts.map dayOf) (h2 : d2 ∈ ts.map dayOf)
    (hlt : d1 < d2) :
    (windowPair ts d1 b p).2 < (windowPair ts d2 b p).1 := by
  obtain ⟨_, hlen1, _, hday1⟩ := windowPair_spec ts hs b p h1
  obtain ⟨hle2, hlen2, hday2, _⟩ := windowPair_spec ts hs b p h2
  have hstart2lt : (windowPair ts d2 b p).1 < ts.length :=
    lt_of_le_of_lt hle2 hlen2
  by_contra hc
  push_neg at hc
  have hmono : dayOf (ts[(windowPair ts d2 b p).1]) ≤
      dayOf (ts[(windowPair ts d1 b p).2]) :=
    day_getElem_mono ts hs hstart2lt hlen1 hc
  rw [← List.getD_eq_getElem ts 0 hstart2lt, hday2,
    ← List.getD_eq_getElem ts 0 hlen1, hday1] at hmono
  omega

/-- The days found in a time-ordered stream are strictly increasing. -/
theorem daysPresent_pairwise_lt (ts : List ℚ)
    (hs : List.Pairwise (· ≤ ·) ts) (maxDays : ℕ) :
    List.Pairwise (· < ·) (daysPresent ts maxDays) := by
  have hmap : List.Pairwise (· ≤ ·) (ts.map dayOf) :=
    List.Pairwise.map dayOf (fun a b h => dayOf_mono h) hs
  have hded : List.Pairwise (· ≤ ·) (ts.map dayOf).dedup :=
    List.Pairwise.sublist (List.dedup_sublist _) hmap
  have hnd : (ts.map dayOf).dedup.Nodup := List.nodup_dedup _
  have hlt : List.Pairwise (· < ·) (ts.map dayOf).dedup :=
    (hded.and hnd).imp (fun hab => lt_of_le_of_ne hab.1 hab.2)
  exact List.Pairwise.sublist (List.take_sublist _ _) hlt

/-- Days found are among the days of the stream. -/
theorem daysPresent_mem (ts : List ℚ) (maxDays : ℕ) {d : ℤ}
    (h : d ∈ daysPresent ts maxDays) : d ∈ ts.map dayOf :=
  List.mem_dedup.mp ((List.take_sublist _ _).subset h)

/-- Concrete one-day stream at 6-hour spacing. -/
def ctsEx : List ℚ := [0, 21600, 43200, 64800]

/-- Concrete two-window spec (base hours 12 and 0, 24-hour periods). -/
def cwEx : Window_t := { n := 2, bases := [12, 0], periods := [24, 24] }

/-- Claim C5 counterexample: on a monotone one-day stream with a two-window
spec whose bases are not sorted, `get_day_indexing` emits the start indices
`[2, 0]` and stop indices `[3, 3]`: the day start/stop pairs are not
monotonically increasing (and the ranges `[2,3]` and `[0,3]` overlap), so
the cross-format invariant as stated fails at this input. -/
theorem c5_day_pairs_counterexample :
    List.Pairwise (· ≤ ·) ctsEx ∧
    (get_day_indexing 50 ctsEx cwEx 25).1 = [2, 0] ∧
    (get_day_indexing 50 ctsEx cwEx 25).2.1 = [3, 3] ∧
    ¬ List.Pairwise (fun a b => a < b) (get_day_indexing 50 ctsEx cwEx 25).1 := by
  have hstarts : (get_day_indexing 50 ctsEx cwEx 25).1 = [2, 0] := by
    norm_num [get_day_indexing, dayPairs, daysPresent, ctsEx, cwEx, dayOf,
      DAYSEC, windowPair, windowStart, timeOfDay, firstAfterDay, endOfDay,
      List.findIdx_cons]
  refine ⟨?_, hstarts, ?_, ?_⟩
  · norm_num [ctsEx, List.pairwise_cons]
  · norm_num [get_day_indexing, dayPairs, daysPresent, ctsEx, cwEx, dayOf,
      DAYSEC, windowPair, windowStart, timeOfDay, firstAfterDay, endOfDay,
      List.findIdx_cons]
  · rw [hstarts]
    decide

/-- Claim C5 (amended: the day-pair invariant holds per window definition -
stated here for a single-window spec - over a time-ordered stream, and the
sample timestamps of a stream synthesized from a start time and a positive
sampling frequency are monotonically non-decreasing; with several window
definitions the pairs of different windows may interleave or overlap, as the
counterexample shows). -/
theorem day_pairs_invariant (ts : List ℚ) (b p : ℤ) (maxDays : ℕ)
    (t0 fs : ℚ) (n : ℕ) (hs : List.Pairwise (· ≤ ·) ts) (hf : 0 < fs) :
    (∀ pr ∈ dayPairs ts [(b, p)] maxDays, pr.1 ≤ pr.2) ∧
    List.Pairwise (fun pr qr => pr.2 < qr.1) (dayPairs ts [(b, p)] maxDays) ∧
    List.Pairwise (· ≤ ·) (synthesizeTs t0 fs n) := by
  rw [dayPairs_single]
  refine ⟨?_, ?_, ?_⟩
  · intro pr hpr
    obtain ⟨d, hd, rfl⟩ := List.mem_map.mp hpr
    exact (windowPair_spec ts hs b p (daysPresent_mem ts maxDays hd)).1
  · rw [List.pairwise_map]
    refine List.Pairwise.imp_of_mem ?_ (daysPresent_pairwise_lt ts hs maxDays)
    intro d1 d2 hm1 hm2 hlt
    exact windowPair_cross ts hs b p (daysPresent_mem _ _ hm1)
      (daysPresent_mem _ _ hm2) hlt
  · unfold synthesizeTs
    rw [List.pairwise_map]
    refine (List.pairwise_lt_range n).imp ?_
    intro i j hij
    have hcast : (i : ℚ) ≤ (j : ℚ) := by exact_mod_cast le_of_lt hij
    exact add_le_add_left ((div_le_div_iff_of_pos_right hf).mpr hcast) t0

/-- Claim C5 witness: the amended theorem instantiated at the concrete
one-day stream, a single `(0, 24)` window, and a 50 Hz synthesized stream. -/
theorem day_pairs_invariant_witness :
    (∀ pr ∈ dayPairs ctsEx [(0, 24)] 25, pr.1 ≤ pr.2) ∧
    List.Pairwise (fun pr qr => pr.2 < qr.1) (dayPairs ctsEx [(0, 24)] 25) ∧
    List.Pairwise (· ≤ ·) (synthesizeTs 0 50 3) :=
  day_pairs_invariant ctsEx 0 24 25 0 50 3
    (by norm_num [ctsEx, List.pairwise_cons]) (by norm_num)

end ReadBinaryIMU
